import Mathlib

/-!
Shallow embedding of the `jamii/maps` micro-benchmark harness
(`src/main.rs`) and verification of its specification claims.

Machine integers (`u64`, `usize`) are modelled as `Nat` with explicit
`% 2 ^ 64` at every operation where Rust wraps, and fallible operations
(slice indexing, panics, division by zero) are modelled with
`Except String` / `Option`.
-/

namespace MapsBench

/-- Modulus of 64-bit unsigned arithmetic. -/
def U64 : Nat := 2 ^ 64

/-- Largest `u64` value (`u64::MAX`). -/
def U64MAX : Nat := U64 - 1

/-- Wrapping `u64` subtraction `a - b` (release-mode semantics of
`after - before` in the source). -/
def u64sub (a b : Nat) : Nat := (a + U64 - b % U64) % U64

/-- Embeds `struct Bin { min: u64, max: u64, sum: u64, count: u64 }`. -/
structure Bin where
  min : Nat
  max : Nat
  sum : Nat
  count : Nat
deriving DecidableEq

/-- Embeds `Bin::new`: `min = u64::MAX, max = 0, sum = 0, count = 0`. -/
def Bin.new : Bin := ⟨U64MAX, 0, 0, 0⟩

/-- Embeds `Bin::add`: `min`/`max` via `std::cmp`, `sum += measurement`
and `count += 1` with `u64` wrapping. -/
def Bin.add (b : Bin) (measurement : Nat) : Bin :=
  { min := Min.min b.min measurement
    max := Max.max b.max measurement
    sum := (b.sum + measurement) % U64
    count := (b.count + 1) % U64 }

/-- Embeds `Bin::mean`, i.e. `u64::div_ceil(self.sum, self.count)`:
quotient plus one when a remainder is left.  `u64::div_ceil` divides by
`self.count`, so a zero count is a division by zero and panics; the
panic is modelled as `none`. -/
def Bin.mean (b : Bin) : Option Nat :=
  if b.count = 0 then none
  else some (b.sum / b.count + if b.sum % b.count = 0 then 0 else 1)

/-- Folds `Bin::add` over a list of measurements. -/
def Bin.addList (b : Bin) (l : List Nat) : Bin := l.foldl Bin.add b

/-- Embeds `struct Bins { bins: Vec<Bin> }`. -/
structure Bins where
  bins : List Bin
deriving DecidableEq

/-- Embeds `Bins::new`: `log_count` copies of `Bin::new`. -/
def Bins.new (log_count : Nat) : Bins := ⟨List.replicate log_count Bin.new⟩

/-- Fuel-driven ceiling base-2 logarithm; `clog2Step fuel n` equals
`Nat.clog 2 n` whenever `n ≤ fuel` (proved below).  A structural
definition is used so that the kernel can evaluate it. -/
def clog2Step : Nat → Nat → Nat
  | _, 0 => 0
  | _, 1 => 0
  | 0, _ + 2 => 0
  | fuel + 1, n + 2 => clog2Step fuel ((n + 2 + 1) / 2) + 1

/-- Embeds the bucket-index computation of `Bins::get`,
`(map_count as f64).log2().ceil() as usize`, as `⌈log₂ map_count⌉`
(with index `0` for `map_count = 0`, matching the saturating
`-inf as usize` cast).  The `f64` pipeline computes exactly this value
for every `map_count` the harness can produce (`map_count < 2 ^ 48`,
far below the first rounding error of `f64` `log2`). -/
def Bins.index (map_count : Nat) : Nat := clog2Step map_count map_count

/-- Embeds `Bins::get` followed by `Bin::add`: indexes
`self.bins[index]` — panicking (modelled as `.error`) when the index is
out of range — and updates that bucket. -/
def Bins.record (bs : Bins) (map_count measurement : Nat) : Except String Bins :=
  let i := Bins.index map_count
  if i < bs.bins.length then
    .ok ⟨bs.bins.set i ((bs.bins.getD i Bin.new).add measurement)⟩
  else
    .error "index out of bounds"

/-- Embeds `struct Metrics`: one `Bins` per operation class. -/
structure Metrics where
  insert_miss : Bins
  insert_hit : Bins
  lookup_hit_all : Bins
  lookup_miss : Bins
  lookup_hit_one : Bins
  free : Bins
deriving DecidableEq

/-- Embeds `Metrics::new`. -/
def Metrics.new (log_count : Nat) : Metrics :=
  ⟨Bins.new log_count, Bins.new log_count, Bins.new log_count,
   Bins.new log_count, Bins.new log_count, Bins.new log_count⟩

/-- Embeds the body of `XorShift64::next`:
`x ^= x << 13; x ^= x >> 7; x ^= x << 17` on a 64-bit state. -/
def xorshiftStep (x : Nat) : Nat :=
  let x1 := x ^^^ (x <<< 13) % U64
  let x2 := x1 ^^^ x1 >>> 7
  x2 ^^^ (x2 <<< 17) % U64

/-- Embeds `struct XorShift64 { a: u64 }`. -/
structure XorShift64 where
  a : Nat
deriving DecidableEq

/-- Embeds `XorShift64::new`: the fixed seed constant. -/
def XorShift64.new : XorShift64 := ⟨123456789⟩

/-- Embeds `XorShift64::next`: the new state is also the returned value. -/
def XorShift64.next (g : XorShift64) : Nat × XorShift64 :=
  (xorshiftStep g.a, ⟨xorshiftStep g.a⟩)

/-- First `n` outputs of a generator. -/
def XorShift64.outputs (g : XorShift64) : Nat → List Nat
  | 0 => []
  | n + 1 => g.next.1 :: g.next.2.outputs n

/-! Basic lemmas about the bucket index. -/

theorem clog2Step_eq_clog : ∀ fuel n, n ≤ fuel → clog2Step fuel n = Nat.clog 2 n := by
  intro fuel
  induction fuel with
  | zero =>
    intro n hn
    interval_cases n
    simp [clog2Step]
  | succ f ih =>
    intro n hn
    match n with
    | 0 => simp [clog2Step]
    | 1 => simp [clog2Step]
    | (m + 2) =>
      have hstep : clog2Step (f + 1) (m + 2) = clog2Step f ((m + 2 + 1) / 2) + 1 := rfl
      have hclog : Nat.clog 2 (m + 2) = Nat.clog 2 ((m + 2 + 2 - 1) / 2) + 1 :=
        Nat.clog_of_two_le (by omega) (by omega)
      have harg : (m + 2 + 2 - 1) / 2 = (m + 2 + 1) / 2 := by omega
      rw [hstep, hclog, harg, ih ((m + 2 + 1) / 2) (by omega)]

theorem Bins.index_eq_clog (n : Nat) : Bins.index n = Nat.clog 2 n :=
  clog2Step_eq_clog n n le_rfl

theorem Bins.index_le_iff (n k : Nat) : Bins.index n ≤ k ↔ n ≤ 2 ^ k := by
  rw [Bins.index_eq_clog]
  exact (Nat.le_pow_iff_clog_le (by omega)).symm

/-- C1: the bucket index computed by `Bins::get` equals
`⌈log₂ (max n 1)⌉`: it is `0` at populations `0` and `1`, `1` at `2`,
`2` at `4`, `3` at `5`, and every population in `(2 ^ (k - 1), 2 ^ k]`
maps to index `k`. -/
theorem C1_bins_index_ceil_log2 :
    Bins.index 0 = 0 ∧ Bins.index 1 = 0 ∧ Bins.index 2 = 1 ∧
    Bins.index 4 = 2 ∧ Bins.index 5 = 3 ∧
    ∀ k n : Nat, 2 ^ (k - 1) < n → n ≤ 2 ^ k → Bins.index n = k := by
  refine ⟨by decide, by decide, by decide, by decide, by decide, ?_⟩
  intro k n h1 h2
  rcases Nat.eq_zero_or_pos k with hk | hk
  · subst hk
    simp only [Nat.zero_sub, pow_zero] at h1 h2
    omega
  · have hle : Bins.index n ≤ k := (Bins.index_le_iff n k).mpr h2
    have hgt : k - 1 < Bins.index n := by
      by_contra hcon
      exact absurd ((Bins.index_le_iff n (k - 1)).mp (by omega)) (by omega)
    omega

/-- C1 witness at `k = 3`, `n = 5`. -/
theorem C1_bins_index_ceil_log2_witness : Bins.index 5 = 3 :=
  C1_bins_index_ceil_log2.2.2.2.2.2 3 5 (by decide) (by decide)

/-! Bin facts: right-commutativity for order-insensitivity, ceiling mean. -/

instance : RightCommutative Bin.add := by
  constructor
  intro b x y
  simp only [Bin.add, Nat.mod_add_mod, Bin.mk.injEq]
  exact ⟨min_right_comm _ _ _, Max.right_comm _ _ _, by rw [Nat.add_right_comm], trivial⟩

theorem Bin.mean_eq_ceil (b : Bin) (hc : 0 < b.count) :
    b.mean = some ((b.sum + b.count - 1) / b.count) := by
  have hc0 : b.count ≠ 0 := by omega
  simp only [Bin.mean, hc0, if_false]
  congr 1
  have hdm := Nat.div_add_mod b.sum b.count
  have hlt : b.sum % b.count < b.count := Nat.mod_lt _ hc
  by_cases h0 : b.sum % b.count = 0
  · have hsum : b.sum + b.count - 1 = b.count - 1 + b.count * (b.sum / b.count) := by
      omega
    have h1 : (b.count - 1 + b.count * (b.sum / b.count)) / b.count
        = (b.count - 1) / b.count + b.sum / b.count := Nat.add_mul_div_left _ _ hc
    have h2 : (b.count - 1) / b.count = 0 := Nat.div_eq_of_lt (by omega)
    rw [if_pos h0, hsum, h1, h2]
    omega
  · have hmul : b.count * (b.sum / b.count + 1) = b.count * (b.sum / b.count) + b.count := by
      ring
    have hsum : b.sum + b.count - 1 =
        b.sum % b.count - 1 + b.count * (b.sum / b.count + 1) := by
      omega
    have h1 : (b.sum % b.count - 1 + b.count * (b.sum / b.count + 1)) / b.count
        = (b.sum % b.count - 1) / b.count + (b.sum / b.count + 1) :=
      Nat.add_mul_div_left _ _ hc
    have h2 : (b.sum % b.count - 1) / b.count = 0 := Nat.div_eq_of_lt (by omega)
    rw [if_neg h0, hsum, h1, h2]
    omega

/-- C3: a fresh `Bin` has `min = u64::MAX`, `max = 0`, `sum = 0`,
`count = 0`; `Bin::mean` is `⌈sum / count⌉` when `count > 0`; and
feeding exactly the samples `[5, 2, 9, 2]` in any order yields
`min = 2`, `max = 9`, `count = 4`, `mean = ⌈18 / 4⌉ = 5`. -/
theorem C3_bin_new_mean_example :
    (Bin.new.min = U64MAX ∧ Bin.new.max = 0 ∧ Bin.new.sum = 0 ∧ Bin.new.count = 0) ∧
    (∀ b : Bin, 0 < b.count → b.mean = some ((b.sum + b.count - 1) / b.count)) ∧
    (∀ l : List Nat, l.Perm [5, 2, 9, 2] →
      (Bin.new.addList l).min = 2 ∧ (Bin.new.addList l).max = 9 ∧
      (Bin.new.addList l).count = 4 ∧ (Bin.new.addList l).mean = some 5) := by
  refine ⟨⟨rfl, rfl, rfl, rfl⟩, fun b hb => Bin.mean_eq_ceil b hb, fun l hl => ?_⟩
  have he : Bin.new.addList l = Bin.new.addList [5, 2, 9, 2] :=
    List.Perm.foldl_eq hl Bin.new
  rw [he]
  refine ⟨?_, ?_, ?_, ?_⟩ <;> decide

/-- C3 witness: the mean clause at a bin with `count = 4` and the
order-insensitivity clause at the reversed sample list. -/
theorem C3_bin_new_mean_example_witness :
    (Bin.mk 2 9 18 4).mean = some ((18 + 4 - 1) / 4) ∧
    (Bin.new.addList [2, 9, 2, 5]).mean = some 5 :=
  ⟨C3_bin_new_mean_example.2.1 (Bin.mk 2 9 18 4) (by decide),
   (C3_bin_new_mean_example.2.2 [2, 9, 2, 5] (by decide)).2.2.2⟩

/-- C4: `XorShift64::new` sets the fixed nonzero seed `123456789`;
`next` returns the shifted-xor update of the state and stores the same
value back; hence two generators with equal state produce identical
output sequences of any length. -/
theorem C4_xorshift_deterministic :
    XorShift64.new.a = 123456789 ∧ XorShift64.new.a ≠ 0 ∧
    (∀ g : XorShift64, g.next.1 = xorshiftStep g.a ∧ g.next.2.a = xorshiftStep g.a) ∧
    ∀ g1 g2 : XorShift64, g1.a = g2.a → ∀ n, g1.outputs n = g2.outputs n := by
  refine ⟨rfl, by decide, fun g => ⟨rfl, rfl⟩, fun g1 g2 h n => ?_⟩
  cases g1
  cases g2
  simp only at h
  subst h
  rfl

/-- C4 witness: two fresh generators agree on their first 5 outputs. -/
theorem C4_xorshift_deterministic_witness :
    XorShift64.new.outputs 5 = XorShift64.new.outputs 5 :=
  C4_xorshift_deterministic.2.2.2 XorShift64.new XorShift64.new rfl 5

/-! Behaviour of `Bins::record` (claim C2). -/

theorem U64_pos : 0 < U64 := by norm_num [U64]

theorem Bins.new_length (cap : Nat) : (Bins.new cap).bins.length = cap := by
  simp [Bins.new]

theorem Bins.record_isOk (bs : Bins) (pop sample : Nat) :
    (bs.record pop sample).isOk = true ↔ Bins.index pop < bs.bins.length := by
  by_cases h : Bins.index pop < bs.bins.length <;>
    simp [Bins.record, h, Except.isOk, Except.toBool]

/-- C2 counterexample: with capacity 1 and population 3 the recording
does not succeed (no clamping happens): `Bins::get` indexes out of
range and panics, although the claim promises success at every
population. -/
theorem C2_counterexample :
    ((Bins.new 1).record 3 0).isOk = false ∧
    (Bins.new 1).record 3 0 = .error "index out of bounds" := by
  constructor <;> rfl

/-- C2 amended: the bucket index is never negative but is not clamped
above: recording a sample into `Bins::new cap` succeeds exactly when
the index `⌈log₂ pop⌉` is below `cap`, i.e. exactly when the population
is at most `2 ^ (cap - 1)`; beyond that the slice indexing panics. -/
theorem C2_record_succeeds_iff (cap pop sample : Nat) (hcap : 0 < cap) :
    (((Bins.new cap).record pop sample).isOk = true ↔ pop ≤ 2 ^ (cap - 1)) ∧
    (((Bins.new cap).record pop sample).isOk = true ↔ Bins.index pop < cap) := by
  have hlen : (Bins.new cap).bins.length = cap := Bins.new_length cap
  have hok := Bins.record_isOk (Bins.new cap) pop sample
  rw [hlen] at hok
  have hiff : Bins.index pop < cap ↔ pop ≤ 2 ^ (cap - 1) := by
    rw [← Bins.index_le_iff]
    omega
  exact ⟨hok.trans hiff, hok⟩

/-- C2 witness at capacity 3, population 4, sample 7. -/
theorem C2_record_succeeds_iff_witness :
    ((Bins.new 3).record 4 7).isOk = true ↔ 4 ≤ 2 ^ (3 - 1) :=
  (C2_record_succeeds_iff 3 4 7 (by decide)).1

/-! Fold lemmas for `Bin::add` sequences (claims C3 and C7). -/

theorem Bin.addList_count (l : List Nat) : ∀ b : Bin, b.count < U64 →
    (b.addList l).count = (b.count + l.length) % U64 := by
  induction l with
  | nil =>
    intro b hb
    simpa [Bin.addList] using (Nat.mod_eq_of_lt hb).symm
  | cons x xs ih =>
    intro b hb
    have hstep : (b.addList (x :: xs)) = (b.add x).addList xs := rfl
    have hc : (b.add x).count = (b.count + 1) % U64 := rfl
    rw [hstep, ih (b.add x) (by rw [hc]; exact Nat.mod_lt _ U64_pos), hc,
      Nat.mod_add_mod]
    congr 1
    simp [List.length_cons]
    omega

theorem Bin.addList_sum (l : List Nat) : ∀ b : Bin, b.sum < U64 →
    (b.addList l).sum = (b.sum + l.sum) % U64 := by
  induction l with
  | nil =>
    intro b hb
    simpa [Bin.addList] using (Nat.mod_eq_of_lt hb).symm
  | cons x xs ih =>
    intro b hb
    have hstep : (b.addList (x :: xs)) = (b.add x).addList xs := rfl
    have hs : (b.add x).sum = (b.sum + x) % U64 := rfl
    rw [hstep, ih (b.add x) (by rw [hs]; exact Nat.mod_lt _ U64_pos), hs,
      Nat.mod_add_mod, List.sum_cons]
    congr 1
    omega

theorem Bin.addList_min (l : List Nat) : ∀ b : Bin,
    (b.addList l).min = l.foldl Min.min b.min := by
  induction l with
  | nil => intro b; rfl
  | cons x xs ih =>
    intro b
    have hstep : (b.addList (x :: xs)) = (b.add x).addList xs := rfl
    rw [hstep, ih (b.add x), List.foldl_cons]
    rfl

theorem Bin.addList_max (l : List Nat) : ∀ b : Bin,
    (b.addList l).max = l.foldl Max.max b.max := by
  induction l with
  | nil => intro b; rfl
  | cons x xs ih =>
    intro b
    have hstep : (b.addList (x :: xs)) = (b.add x).addList xs := rfl
    rw [hstep, ih (b.add x), List.foldl_cons]
    rfl

theorem foldl_min_le_init (l : List Nat) : ∀ a : Nat, l.foldl Min.min a ≤ a := by
  induction l with
  | nil => intro a; exact le_rfl
  | cons x xs ih =>
    intro a
    exact le_trans (ih (Min.min a x)) (Nat.min_le_left a x)

theorem foldl_min_le_mem (l : List Nat) : ∀ a x : Nat, x ∈ l → l.foldl Min.min a ≤ x := by
  induction l with
  | nil => intro a x hx; cases hx
  | cons y ys ih =>
    intro a x hx
    rw [List.foldl_cons]
    rcases List.mem_cons.mp hx with h | h
    · subst h
      exact le_trans (foldl_min_le_init ys (Min.min a x)) (Nat.min_le_right a x)
    · exact ih (Min.min a y) x h

theorem init_le_foldl_max (l : List Nat) : ∀ a : Nat, a ≤ l.foldl Max.max a := by
  induction l with
  | nil => intro a; exact le_rfl
  | cons x xs ih =>
    intro a
    exact le_trans (Nat.le_max_left a x) (ih (Max.max a x))

theorem mem_le_foldl_max (l : List Nat) : ∀ a x : Nat, x ∈ l → x ≤ l.foldl Max.max a := by
  induction l with
  | nil => intro a x hx; cases hx
  | cons y ys ih =>
    intro a x hx
    rw [List.foldl_cons]
    rcases List.mem_cons.mp hx with h | h
    · subst h
      exact le_trans (Nat.le_max_right a x) (init_le_foldl_max ys (Max.max a x))
    · exact ih (Max.max a y) x h

theorem length_mul_le_sum (l : List Nat) (c : Nat) (h : ∀ x ∈ l, c ≤ x) :
    l.length * c ≤ l.sum := by
  induction l with
  | nil => simp
  | cons x xs ih =>
    have hx : c ≤ x := h x (List.mem_cons_self x xs)
    have hxs : xs.length * c ≤ xs.sum := ih fun y hy => h y (List.mem_cons_of_mem x hy)
    simp only [List.length_cons, List.sum_cons]
    calc (xs.length + 1) * c = xs.length * c + c := by ring
    _ ≤ xs.sum + x := by omega
    _ = x + xs.sum := by omega

theorem sum_le_length_mul (l : List Nat) (c : Nat) (h : ∀ x ∈ l, x ≤ c) :
    l.sum ≤ l.length * c := by
  induction l with
  | nil => simp
  | cons x xs ih =>
    have hx : x ≤ c := h x (List.mem_cons_self x xs)
    have hxs : xs.sum ≤ xs.length * c := ih fun y hy => h y (List.mem_cons_of_mem x hy)
    simp only [List.length_cons, List.sum_cons]
    calc x + xs.sum ≤ c + xs.length * c := by omega
    _ = (xs.length + 1) * c := by ring

theorem sum_take_le (l : List Nat) (k : Nat) : (l.take k).sum ≤ l.sum := by
  have hsplit : (l.take k).sum + (l.drop k).sum = l.sum := by
    rw [← List.sum_append, List.take_append_drop]
  omega

theorem foldl_max_replicate_zero : ∀ n a : Nat, (List.replicate n 0).foldl Max.max a = a := by
  intro n
  induction n with
  | zero => intro a; rfl
  | succ m ih =>
    intro a
    rw [List.replicate_succ, List.foldl_cons]
    have hma : Max.max a 0 = a := Nat.max_zero ..
    rw [hma]
    exact ih a

/-- C7 counterexample: adding the samples `[5, 5]` followed by
`2 ^ 64 - 1` zero samples never overflows the running sum (it stays at
`10`), yet wraps `count` around to `1`, so the resulting bin reports
`mean = 10` while `max = 5`, violating `mean ≤ max`. -/
theorem C7_counterexample :
    ([5, 5] ++ List.replicate (U64 - 1) 0).sum < U64 ∧
    0 < (Bin.new.addList ([5, 5] ++ List.replicate (U64 - 1) 0)).count ∧
    (Bin.new.addList ([5, 5] ++ List.replicate (U64 - 1) 0)).mean = some 10 ∧
    (Bin.new.addList ([5, 5] ++ List.replicate (U64 - 1) 0)).max = 5 ∧
    ¬(10 ≤ (Bin.new.addList ([5, 5] ++ List.replicate (U64 - 1) 0)).max) := by
  have hsum10 : ([5, 5] ++ List.replicate (U64 - 1) 0).sum = 10 := by
    rw [List.sum_append, List.sum_replicate, smul_zero]
    decide
  have hlen : ([5, 5] ++ List.replicate (U64 - 1) 0).length = U64 + 1 := by
    have h1 : 0 < U64 := U64_pos
    rw [List.length_append, List.length_replicate]
    show 2 + (U64 - 1) = U64 + 1
    omega
  have hcount : (Bin.new.addList ([5, 5] ++ List.replicate (U64 - 1) 0)).count = 1 := by
    rw [Bin.addList_count _ Bin.new U64_pos, hlen]
    show (0 + (U64 + 1)) % U64 = 1
    rw [Nat.zero_add, Nat.add_mod_left]
    exact Nat.mod_eq_of_lt (by norm_num [U64])
  have hsum : (Bin.new.addList ([5, 5] ++ List.replicate (U64 - 1) 0)).sum = 10 := by
    rw [Bin.addList_sum _ Bin.new (by norm_num [Bin.new, U64]), hsum10]
    show (0 + 10) % U64 = 10
    rw [Nat.zero_add]
    exact Nat.mod_eq_of_lt (by norm_num [U64])
  have hmax : (Bin.new.addList ([5, 5] ++ List.replicate (U64 - 1) 0)).max = 5 := by
    rw [Bin.addList_max]
    show (([5, 5] : List Nat) ++ List.replicate (U64 - 1) 0).foldl Max.max Bin.new.max = 5
    rw [List.foldl_append]
    have h2 : (([5, 5] : List Nat)).foldl Max.max Bin.new.max = 5 := by decide
    rw [h2, foldl_max_replicate_zero]
  refine ⟨by rw [hsum10]; norm_num [U64], by rw [hcount]; omega, ?_, hmax, ?_⟩
  · rw [Bin.mean, hcount, hsum]
    norm_num
  · rw [hmax]
    omega

/-- C7 amended: for a bin built by `Bin::add` from `Bin::new` with no
overflow of the running sum and also fewer than `2 ^ 64` add calls (so
that `count` cannot wrap either), once `count > 0` the mean lies
between `min` and `max`. -/
theorem C7_min_le_mean_le_max (l : List Nat) (hne : l ≠ [])
    (hsum : l.sum < U64) (hlen : l.length < U64) :
    ∀ m : Nat, (Bin.new.addList l).mean = some m →
      (Bin.new.addList l).min ≤ m ∧ m ≤ (Bin.new.addList l).max := by
  intro m hm
  have hn : 0 < l.length := List.length_pos.mpr hne
  have hcount : (Bin.new.addList l).count = l.length := by
    rw [Bin.addList_count _ Bin.new U64_pos]
    show (0 + l.length) % U64 = l.length
    rw [Nat.zero_add]
    exact Nat.mod_eq_of_lt hlen
  have hsums : (Bin.new.addList l).sum = l.sum := by
    rw [Bin.addList_sum _ Bin.new (by norm_num [Bin.new, U64])]
    show (0 + l.sum) % U64 = l.sum
    rw [Nat.zero_add]
    exact Nat.mod_eq_of_lt hsum
  have hmean := Bin.mean_eq_ceil (Bin.new.addList l) (by omega)
  rw [hm] at hmean
  have hmval : m = (l.sum + l.length - 1) / l.length := by
    rw [hcount, hsums] at hmean
    exact (Option.some.injEq _ _).mp hmean.symm |>.symm
  have hminf : (Bin.new.addList l).min = l.foldl Min.min Bin.new.min :=
    Bin.addList_min l Bin.new
  have hmaxf : (Bin.new.addList l).max = l.foldl Max.max Bin.new.max :=
    Bin.addList_max l Bin.new
  constructor
  · have hlb : ∀ x ∈ l, (Bin.new.addList l).min ≤ x := by
      intro x hx
      rw [hminf]
      exact foldl_min_le_mem l Bin.new.min x hx
    have hmul : l.length * (Bin.new.addList l).min ≤ l.sum :=
      length_mul_le_sum l _ hlb
    rw [hmval]
    rw [Nat.le_div_iff_mul_le hn]
    calc (Bin.new.addList l).min * l.length = l.length * (Bin.new.addList l).min := by
          ring
    _ ≤ l.sum := hmul
    _ ≤ l.sum + l.length - 1 := by omega
  · have hub : ∀ x ∈ l, x ≤ (Bin.new.addList l).max := by
      intro x hx
      rw [hmaxf]
      exact mem_le_foldl_max l Bin.new.max x hx
    have hmul : l.sum ≤ l.length * (Bin.new.addList l).max :=
      sum_le_length_mul l _ hub
    rw [hmval]
    have hlt : l.sum + l.length - 1 < ((Bin.new.addList l).max + 1) * l.length := by
      have : ((Bin.new.addList l).max + 1) * l.length
          = l.length * (Bin.new.addList l).max + l.length := by ring
      omega
    have := (Nat.div_lt_iff_lt_mul hn).mpr hlt
    omega

/-- C7 witness: the amended invariant at the sample list `[5, 2, 9, 2]`:
`min = 2 ≤ mean = 5 ≤ max = 9`. -/
theorem C7_min_le_mean_le_max_witness :
    (Bin.new.addList [5, 2, 9, 2]).min ≤ 5 ∧ 5 ≤ (Bin.new.addList [5, 2, 9, 2]).max :=
  C7_min_le_mean_le_max [5, 2, 9, 2] (by decide) (by norm_num [U64])
    (by norm_num [U64]) 5 (by decide)

/-! Rendering of the final report (claim C10). -/

/-- Sequences a list of optional values, failing if any is `none`
(models a loop that panics at its first failing element). -/
def consOpt {g : Type} : Option g → Option (List g) → Option (List g)
  | some x, some xs => some (x :: xs)
  | _, _ => none

def seqOpt {g : Type} : List (Option g) → Option (List g)
  | [] => some []
  | o :: os => consOpt o (seqOpt os)

/-- Embeds one printed block of the report: the `min` row, the `avg` row
(which calls `Bin::mean` on every bucket and panics on an empty
bucket), and the `max` row. -/
def Bins.renderBlock (bs : Bins) : Option (List Nat × List Nat × List Nat) :=
  match seqOpt (bs.bins.map Bin.mean) with
  | none => none
  | some avgs => some (bs.bins.map Bin.min, avgs, bs.bins.map Bin.max)

/-- The six series printed by `bench!`, in print order. -/
def Metrics.seriesList (mets : Metrics) : List Bins :=
  [mets.insert_miss, mets.insert_hit, mets.lookup_hit_all,
   mets.lookup_miss, mets.lookup_hit_one, mets.free]

/-- Embeds the printing pass at the end of `bench!`: every series is
rendered; any empty bucket makes `mean` panic, aborting the report. -/
def Metrics.render (mets : Metrics) : Option (List (List Nat × List Nat × List Nat)) :=
  seqOpt (mets.seriesList.map Bins.renderBlock)

theorem seqOpt_isSome {g : Type} :
    ∀ l : List (Option g), (seqOpt l).isSome = true ↔ ∀ o ∈ l, o.isSome = true := by
  intro l
  induction l with
  | nil => simp [seqOpt]
  | cons o os ih =>
    cases o with
    | none => simp [seqOpt, consOpt]
    | some x =>
      cases hos : seqOpt os with
      | none =>
        rw [hos] at ih
        simp only [seqOpt, hos, consOpt]
        simp only [Option.isSome_none, Bool.false_eq_true, false_iff] at ih ⊢
        intro hall
        exact ih fun a ha => hall a (List.mem_cons_of_mem _ ha)
      | some xs =>
        rw [hos] at ih
        simp only [seqOpt, hos, consOpt]
        simp only [Option.isSome_some, true_iff] at ih
        simp only [Option.isSome_some, true_iff]
        intro a ha
        rcases List.mem_cons.mp ha with h | h
        · subst h
          rfl
        · exact ih a h

theorem Bin.mean_isSome (b : Bin) : b.mean.isSome = true ↔ b.count ≠ 0 := by
  by_cases h : b.count = 0 <;> simp [Bin.mean, h]

theorem Bins.renderBlock_isSome (bs : Bins) :
    bs.renderBlock.isSome = true ↔ ∀ b ∈ bs.bins, b.count ≠ 0 := by
  have h1 : bs.renderBlock.isSome = (seqOpt (bs.bins.map Bin.mean)).isSome := by
    rw [Bins.renderBlock]
    cases seqOpt (bs.bins.map Bin.mean) <;> rfl
  rw [h1, seqOpt_isSome]
  constructor
  · intro h b hb
    exact (Bin.mean_isSome b).mp (h (Bin.mean b) (List.mem_map_of_mem Bin.mean hb))
  · intro h o ho
    rcases List.mem_map.mp ho with ⟨b, hb, he⟩
    subst he
    exact (Bin.mean_isSome b).mpr (h b hb)

/-- C10: `Bin::mean` on an empty bucket is a division by zero (no
default value), and the rendering pass calls `mean` on every bucket of
every series, so the report completes exactly when every bucket of
every operation-class series received at least one sample. -/
theorem C10_render_requires_every_bucket :
    (∀ b : Bin, b.count = 0 → b.mean = none) ∧
    ∀ mets : Metrics, mets.render.isSome = true ↔
      ∀ bs ∈ mets.seriesList, ∀ b ∈ bs.bins, b.count ≠ 0 := by
  constructor
  · intro b h
    simp [Bin.mean, h]
  · intro mets
    rw [Metrics.render, seqOpt_isSome]
    constructor
    · intro h bs hbs
      exact (Bins.renderBlock_isSome bs).mp
        (h (Bins.renderBlock bs) (List.mem_map_of_mem Bins.renderBlock hbs))
    · intro h o ho
      rcases List.mem_map.mp ho with ⟨bs, hbs, he⟩
      subst he
      exact (Bins.renderBlock_isSome bs).mpr (h bs hbs)

/-- C10 witness: a fresh bin's mean is the division-by-zero panic, and
a metrics value whose every bucket holds one sample renders
successfully. -/
theorem C10_render_requires_every_bucket_witness :
    Bin.new.mean = none ∧
    (Metrics.mk ⟨[Bin.mk 3 3 3 1]⟩ ⟨[Bin.mk 3 3 3 1]⟩ ⟨[Bin.mk 3 3 3 1]⟩
      ⟨[Bin.mk 3 3 3 1]⟩ ⟨[Bin.mk 3 3 3 1]⟩ ⟨[Bin.mk 3 3 3 1]⟩).render.isSome = true := by
  refine ⟨C10_render_requires_every_bucket.1 Bin.new rfl, ?_⟩
  refine (C10_render_requires_every_bucket.2 _).mpr ?_
  decide

/-! The benchmark driver (`bench_one!` and `bench!` macros). -/

/-- Abstract map collaborator: the operations `bench_one!` consumes
from the benchmarked map type (`new`, `insert`, `get`, `len`). -/
structure MapImpl (M : Type) where
  empty : M
  insert : M → Nat → Nat → M
  get : M → Nat → Option Nat
  len : M → Nat

/-- Embeds the key-drawing loops of `bench_one!`: draws `n` successive
generator values starting from state `a`, returning them together with
the final generator state. -/
def genList : Nat → Nat → List Nat × Nat
  | 0, a => ([], a)
  | n + 1, a =>
    let x := xorshiftStep a
    let p := genList n x
    (x :: p.1, p.2)

/-- Embeds `values.push(keys[(i + 1) % count])` for `i` in `0..count`. -/
def valuesOf (keys : List Nat) : List Nat :=
  (List.range keys.length).map fun i => keys.getD ((i + 1) % keys.length) 0

/-- Embeds the two timed insert loops of `bench_one!`: for each pair,
bracket the insert with two timer reads and record the delta at the
map's population measured after that insert. -/
def insertPhase {M : Type} (impl : MapImpl M) (timer : Nat → Nat) :
    List (Nat × Nat) → M → Bins → Nat → Except String (M × Bins × Nat)
  | [], m, bs, t => .ok (m, bs, t)
  | kv :: rest, m, bs, t =>
    let before := timer t
    let m2 := impl.insert m kv.1 kv.2
    let after := timer (t + 1)
    Except.bind (bs.record (impl.len m2) (u64sub after before)) fun bs2 =>
      insertPhase impl timer rest m2 bs2 (t + 2)

/-- Embeds the inner loop of the `lookup_hit_all` block: look every key
up, panicking at the first absent result. -/
def lookupAllLoop {M : Type} (impl : MapImpl M) (m : M) : List Nat → Except String Unit
  | [] => .ok ()
  | k :: rest =>
    match impl.get m k with
    | none => .error "Oh no!"
    | some _ => lookupAllLoop impl m rest

/-- Embeds the `lookup_hit_all` block: one timer bracket around the
whole loop, then a single record of the delta divided by the count. -/
def lookupAllPhase {M : Type} (impl : MapImpl M) (timer : Nat → Nat) (m : M)
    (keys : List Nat) (count : Nat) (bs : Bins) (t : Nat) :
    Except String (Bins × Nat) :=
  let before := timer t
  Except.bind (lookupAllLoop impl m keys) fun _ =>
    let after := timer (t + 1)
    Except.bind (bs.record (impl.len m) (u64sub after before / count)) fun bs2 =>
      .ok (bs2, t + 2)

/-- Embeds the `lookup_hit_one` loop.  As in the source, the sample is
recorded before the `is_none` check panics. -/
def lookupOnePhase {M : Type} (impl : MapImpl M) (timer : Nat → Nat) (m : M) :
    List Nat → Bins → Nat → Except String (Bins × Nat)
  | [], bs, t => .ok (bs, t)
  | k :: rest, bs, t =>
    let before := timer t
    let v := impl.get m k
    let after := timer (t + 1)
    Except.bind (bs.record (impl.len m) (u64sub after before)) fun bs2 =>
      if v.isNone then .error "Oh no!"
      else lookupOnePhase impl timer m rest bs2 (t + 2)

/-- Embeds the `lookup_miss` loop: records the sample, then panics if
the lookup unexpectedly hits. -/
def lookupMissPhase {M : Type} (impl : MapImpl M) (timer : Nat → Nat) (m : M) :
    List Nat → Bins → Nat → Except String (Bins × Nat)
  | [], bs, t => .ok (bs, t)
  | k :: rest, bs, t =>
    let before := timer t
    let v := impl.get m k
    let after := timer (t + 1)
    Except.bind (bs.record (impl.len m) (u64sub after before)) fun bs2 =>
      if v.isSome then .error "Oh no!"
      else lookupMissPhase impl timer m rest bs2 (t + 2)

/-- Embeds `bench_one!`: the empty-map precondition check, generation
of `keys`, `keys_missing` and `values`, the two insert phases and the
three lookup phases, threading the map, generator state, metrics and
timer position. -/
def benchOne {M : Type} (impl : MapImpl M) (timer : Nat → Nat) (m : M) (a : Nat)
    (log_count : Nat) (mets : Metrics) (t : Nat) :
    Except String (M × Nat × Metrics × Nat) :=
  if impl.len m ≠ 0 then .error "Non-empty map"
  else
    let count := 2 ^ log_count
    let kp := genList count a
    let mp := genList count kp.2
    let keys := kp.1
    let pairs := keys.zip (valuesOf keys)
    match insertPhase impl timer pairs m mets.insert_miss t with
    | .error e => .error e
    | .ok (m1, bIM, t1) =>
      match insertPhase impl timer pairs m1 mets.insert_hit t1 with
      | .error e => .error e
      | .ok (m2, bIH, t2) =>
        match lookupAllPhase impl timer m2 keys count mets.lookup_hit_all t2 with
        | .error e => .error e
        | .ok (bALL, t3) =>
          match lookupOnePhase impl timer m2 keys mets.lookup_hit_one t3 with
          | .error e => .error e
          | .ok (bONE, t4) =>
            match lookupMissPhase impl timer m2 mp.1 mets.lookup_miss t4 with
            | .error e => .error e
            | .ok (bMISS, t5) =>
              .ok (m2, mp.2, Metrics.mk bIM bIH bALL bMISS bONE mets.free, t5)

/-- Starting size exponents of the trials run by `bench!`, in order:
exponent `s` occurs `2 ^ (log_count - s)` times, for `s` from `0` up to
`log_count - 1`. -/
def benchTrials (log_count : Nat) : List Nat :=
  (List.range log_count).flatMap fun s => List.replicate (2 ^ (log_count - s)) s

/-- Embeds the trial loop of `bench!`: every trial constructs a fresh
empty map, runs `bench_one!`, then times `drop(map)` and records it in
the `free` series at the dropped population. -/
def runTrials {M : Type} (impl : MapImpl M) (timer : Nat → Nat) :
    List Nat → Nat → Metrics → Nat → Except String (Nat × Metrics × Nat)
  | [], a, mets, t => .ok (a, mets, t)
  | s :: rest, a, mets, t =>
    match benchOne impl timer impl.empty a s mets t with
    | .error e => .error e
    | .ok (m2, a2, mets2, t2) =>
      let len := impl.len m2
      let before := timer t2
      let after := timer (t2 + 1)
      match mets2.free.record len (u64sub after before) with
      | .error e => .error e
      | .ok bF =>
        runTrials impl timer rest a2
          (Metrics.mk mets2.insert_miss mets2.insert_hit mets2.lookup_hit_all
            mets2.lookup_miss mets2.lookup_hit_one bF) (t2 + 2)

/-- Embeds `bench!` up to (and excluding) the printing pass. -/
def bench {M : Type} (impl : MapImpl M) (timer : Nat → Nat) (log_count : Nat) (a : Nat) :
    Except String (Nat × Metrics × Nat) :=
  runTrials impl timer (benchTrials log_count) a (Metrics.new log_count) 0

/-- Error message of a run, `none` when it succeeded. -/
def errOf {A : Type} : Except String A → Option String
  | .error e => some e
  | .ok _ => none

theorem exceptBind_ok {E A B : Type} (x : A) (f : A → Except E B) :
    Except.bind (Except.ok x) f = f x := rfl

theorem exceptBind_error {E A B : Type} (e : E) (f : A → Except E B) :
    Except.bind (Except.error e) f = Except.error e := rfl

/-- Reference correct-map model for the driver.  It stores the set of
inserted keys in insertion order: `insert` of a present key is a no-op
on the key set, `get` hits exactly the stored keys, and `len` is the
population.  The driver never reads the returned value, so values are
not tracked. -/
def setMapImpl : MapImpl (List Nat) :=
  ⟨[], fun m k _ => if k ∈ m then m else m ++ [k],
   fun m k => if k ∈ m then some 0 else none, List.length⟩

/-- Stub map whose lookups always miss (`get` is constantly `None`). -/
def absentStub : MapImpl (List Nat) :=
  ⟨[], fun m k _ => if k ∈ m then m else m ++ [k], fun _ _ => none, List.length⟩

/-- Stub map whose lookups always hit (`get` is constantly `Some 0`). -/
def presentStub : MapImpl (List Nat) :=
  ⟨[], fun m k _ => if k ∈ m then m else m ++ [k], fun _ _ => some 0, List.length⟩

/-! Trial bookkeeping (claim C5). -/

theorem count_flatMap_replicate (f : Nat → Nat) :
    ∀ L s : Nat, ((List.range L).flatMap fun i => List.replicate (f i) i).count s
      = if s < L then f s else 0 := by
  intro L
  induction L with
  | zero => intro s; simp
  | succ n ih =>
    intro s
    rw [List.range_succ, List.flatMap_append, List.count_append, ih s]
    have h2 : (([n] : List Nat).flatMap fun i => List.replicate (f i) i)
        = List.replicate (f n) n := by
      simp
    rw [h2, List.count_replicate]
    simp only [beq_iff_eq]
    rcases Nat.lt_trichotomy s n with h | h | h
    · rw [if_pos h, if_neg (show ¬n = s by omega), if_pos (show s < n + 1 by omega)]
      omega
    · subst h
      rw [if_neg (show ¬s < s by omega), if_pos rfl, if_pos (show s < s + 1 by omega)]
      omega
    · rw [if_neg (show ¬s < n by omega), if_neg (show ¬n = s by omega),
        if_neg (show ¬s < n + 1 by omega)]

/-- C5: the driver runs, for each starting exponent `s` from `0`
through `L - 1`, exactly `2 ^ (L - s)` trials (none for `s ≥ L`), each
against a freshly constructed map; for `L = 3` that is
`2^3 + 2^2 + 2^1 = 14` trials in total. -/
theorem C5_trial_counts :
    (∀ L s : Nat, s < L → (benchTrials L).count s = 2 ^ (L - s)) ∧
    (∀ L s : Nat, L ≤ s → (benchTrials L).count s = 0) ∧
    (benchTrials 3).length = 14 ∧
    ∀ (M : Type) (impl : MapImpl M) (timer : Nat → Nat) (L a : Nat),
      bench impl timer L a = runTrials impl timer (benchTrials L) a (Metrics.new L) 0 := by
  refine ⟨?_, ?_, by decide, fun M impl timer L a => rfl⟩
  · intro L s hs
    rw [benchTrials, count_flatMap_replicate, if_pos hs]
  · intro L s hs
    rw [benchTrials, count_flatMap_replicate, if_neg (by omega)]

/-- C5 witness at `L = 3`: exponent 1 runs `2 ^ 2 = 4` trials and
exponent 5 runs none. -/
theorem C5_trial_counts_witness :
    (benchTrials 3).count 1 = 2 ^ (3 - 1) ∧ (benchTrials 3).count 5 = 0 :=
  ⟨C5_trial_counts.1 3 1 (by decide), C5_trial_counts.2.1 3 5 (by decide)⟩

/-! Fail-fast behaviour (claim C6). -/

/-- C6: the driver panics on precondition and correctness violations
and recovers from none: a non-empty map aborts a trial at once with
"Non-empty map"; an absent result in either lookup-hit phase aborts at
that first failing lookup with "Oh no!" (no later lookup runs); a
present result in the lookup-miss phase aborts likewise; a stub map
whose `get` always misses drives a full trial into the "Oh no!" abort
(in the first lookup-hit block, after the insert phases), a stub whose
`get` always hits aborts in the lookup-miss phase, and a trial against
a correct map aborts not at all. -/
theorem C6_fail_fast :
    (∀ (M : Type) (impl : MapImpl M) (timer : Nat → Nat) (m : M) (a s : Nat)
        (mets : Metrics) (t : Nat), impl.len m ≠ 0 →
      benchOne impl timer m a s mets t = .error "Non-empty map") ∧
    (∀ (M : Type) (impl : MapImpl M) (m : M) (k : Nat) (rest : List Nat),
      impl.get m k = none → lookupAllLoop impl m (k :: rest) = .error "Oh no!") ∧
    (∀ (M : Type) (impl : MapImpl M) (timer : Nat → Nat) (m : M) (k : Nat)
        (rest : List Nat) (bs : Bins) (t : Nat),
      impl.get m k = none → Bins.index (impl.len m) < bs.bins.length →
      lookupOnePhase impl timer m (k :: rest) bs t = .error "Oh no!") ∧
    (∀ (M : Type) (impl : MapImpl M) (timer : Nat → Nat) (m : M) (k v : Nat)
        (rest : List Nat) (bs : Bins) (t : Nat),
      impl.get m k = some v → Bins.index (impl.len m) < bs.bins.length →
      lookupMissPhase impl timer m (k :: rest) bs t = .error "Oh no!") ∧
    errOf (benchOne absentStub (fun _ => 0) [] 123456789 1 (Metrics.new 3) 0)
      = some "Oh no!" ∧
    errOf (benchOne presentStub (fun _ => 0) [] 123456789 1 (Metrics.new 3) 0)
      = some "Oh no!" ∧
    (benchOne setMapImpl (fun _ => 0) [] 123456789 2 (Metrics.new 3) 0).isOk = true := by
  refine ⟨?_, ?_, ?_, ?_, by decide, by decide, by decide⟩
  · intro M impl timer m a s mets t h
    simp only [benchOne, if_pos h]
  · intro M impl m k rest h
    simp only [lookupAllLoop, h]
  · intro M impl timer m k rest bs t h hj
    simp [lookupOnePhase, Bins.record, if_pos hj, h, exceptBind_ok]
  · intro M impl timer m k v rest bs t h hj
    simp [lookupMissPhase, Bins.record, if_pos hj, h, exceptBind_ok]

/-- C6 witness: each panic branch triggered at a concrete input. -/
theorem C6_fail_fast_witness :
    benchOne setMapImpl (fun _ => 0) [5] 0 0 (Metrics.new 1) 0
      = .error "Non-empty map" ∧
    lookupAllLoop absentStub [] [0] = .error "Oh no!" ∧
    lookupOnePhase absentStub (fun _ => 0) [] [0] (Bins.new 1) 0 = .error "Oh no!" ∧
    lookupMissPhase presentStub (fun _ => 0) [] [0] (Bins.new 1) 0 = .error "Oh no!" :=
  ⟨C6_fail_fast.1 (List Nat) setMapImpl (fun _ => 0) [5] 0 0 (Metrics.new 1) 0
      (by decide),
   C6_fail_fast.2.1 (List Nat) absentStub [] 0 [] rfl,
   C6_fail_fast.2.2.1 (List Nat) absentStub (fun _ => 0) [] 0 [] (Bins.new 1) 0
      rfl (by decide),
   C6_fail_fast.2.2.2.1 (List Nat) presentStub (fun _ => 0) [] 0 0 [] (Bins.new 1) 0
      rfl (by decide)⟩

/-! The insert-hit phase (claim C8). -/

theorem setInsert_mem (m : List Nat) (k v x : Nat) :
    x ∈ setMapImpl.insert m k v ↔ x ∈ m ∨ x = k := by
  show x ∈ (if k ∈ m then m else m ++ [k]) ↔ x ∈ m ∨ x = k
  by_cases h : k ∈ m
  · rw [if_pos h]
    constructor
    · exact fun hx => Or.inl hx
    · rintro (hx | hx)
      · exact hx
      · exact hx ▸ h
  · rw [if_neg h, List.mem_append, List.mem_singleton]

theorem setInsert_eq_of_mem (m : List Nat) (k v : Nat) (h : k ∈ m) :
    setMapImpl.insert m k v = m := by
  show (if k ∈ m then m else m ++ [k]) = m
  rw [if_pos h]

theorem insertPhase_set_mem (timer : Nat → Nat) :
    ∀ (pairs : List (Nat × Nat)) (m : List Nat) (bs : Bins) (t : Nat)
      (m2 : List Nat) (bs2 : Bins) (t2 : Nat),
      insertPhase setMapImpl timer pairs m bs t = .ok (m2, bs2, t2) →
      (∀ x, x ∈ m → x ∈ m2) ∧ ∀ p ∈ pairs, p.1 ∈ m2 := by
  intro pairs
  induction pairs with
  | nil =>
    intro m bs t m2 bs2 t2 h
    simp only [insertPhase, Except.ok.injEq, Prod.mk.injEq] at h
    obtain ⟨h1, h2, h3⟩ := h
    subst h1
    exact ⟨fun x hx => hx, by simp⟩
  | cons kv rest ih =>
    intro m bs t m2 bs2 t2 h
    have hunfold : insertPhase setMapImpl timer (kv :: rest) m bs t
        = Except.bind (Bins.record bs (setMapImpl.len (setMapImpl.insert m kv.1 kv.2))
            (u64sub (timer (t + 1)) (timer t))) (fun bsx =>
          insertPhase setMapImpl timer rest (setMapImpl.insert m kv.1 kv.2) bsx (t + 2)) :=
      rfl
    rw [hunfold] at h
    cases hrec : Bins.record bs (setMapImpl.len (setMapImpl.insert m kv.1 kv.2))
        (u64sub (timer (t + 1)) (timer t)) with
    | error e =>
      rw [hrec, exceptBind_error] at h
      cases h
    | ok bsx =>
      rw [hrec, exceptBind_ok] at h
      obtain ⟨hmono, hmem⟩ := ih (setMapImpl.insert m kv.1 kv.2) bsx (t + 2) m2 bs2 t2 h
      refine ⟨fun x hx => hmono x ((setInsert_mem m kv.1 kv.2 x).mpr (Or.inl hx)), ?_⟩
      intro p hp
      rcases List.mem_cons.mp hp with hp | hp
      · subst hp
        exact hmono p.1 ((setInsert_mem m p.1 p.2 p.1).mpr (Or.inr rfl))
      · exact hmem p hp

/-- Bucket occupancy of a series. -/
def binCounts (bs : Bins) : List Nat := bs.bins.map Bin.count

/-- Occupancy of a series after recording `n` further samples at
bucket `j`. -/
def countsAfter : List Nat → Nat → Nat → List Nat
  | l, _, 0 => l
  | l, j, n + 1 => countsAfter (l.set j ((l.getD j 0 + 1) % U64)) j n

theorem countsAfter_closed (j : Nat) :
    ∀ (n : Nat) (l : List Nat), j < l.length →
      countsAfter l j (n + 1) = l.set j ((l.getD j 0 + (n + 1)) % U64) := by
  intro n
  induction n with
  | zero =>
    intro l hj
    rfl
  | succ p ih =>
    intro l hj
    have hstep : countsAfter l j (p + 1 + 1)
        = countsAfter (l.set j ((l.getD j 0 + 1) % U64)) j (p + 1) := rfl
    rw [hstep, ih (l.set j ((l.getD j 0 + 1) % U64)) (by rw [List.length_set]; exact hj)]
    rw [List.set_set]
    have hget : (l.set j ((l.getD j 0 + 1) % U64)).getD j 0 = (l.getD j 0 + 1) % U64 := by
      rw [List.getD_eq_getElem _ _ (by rw [List.length_set]; exact hj)]
      rw [List.getElem_set_self]
    rw [hget, Nat.mod_add_mod]
    have harith : l.getD j 0 + 1 + (p + 1) = l.getD j 0 + (p + 1 + 1) := by omega
    rw [harith]

theorem insertPhase_hit (timer : Nat → Nat) :
    ∀ (pairs : List (Nat × Nat)) (m : List Nat) (bs : Bins) (t : Nat),
      (∀ p ∈ pairs, p.1 ∈ m) →
      Bins.index m.length < bs.bins.length →
      ∃ bs2, insertPhase setMapImpl timer pairs m bs t
          = .ok (m, bs2, t + 2 * pairs.length) ∧
        bs2.bins.length = bs.bins.length ∧
        binCounts bs2 = countsAfter (binCounts bs) (Bins.index m.length) pairs.length := by
  intro pairs
  induction pairs with
  | nil =>
    intro m bs t hmem hj
    exact ⟨bs, by simp [insertPhase], rfl, rfl⟩
  | cons kv rest ih =>
    intro m bs t hmem hj
    have hk : kv.1 ∈ m := hmem kv (List.mem_cons_self kv rest)
    have hins : setMapImpl.insert m kv.1 kv.2 = m := setInsert_eq_of_mem m kv.1 kv.2 hk
    have hlen : setMapImpl.len (setMapImpl.insert m kv.1 kv.2) = m.length := by
      rw [hins]
      rfl
    have hjlt : Bins.index m.length < bs.bins.length := hj
    have hrec : Bins.record bs (setMapImpl.len (setMapImpl.insert m kv.1 kv.2))
        (u64sub (timer (t + 1)) (timer t))
        = .ok ⟨bs.bins.set (Bins.index m.length)
            ((bs.bins.getD (Bins.index m.length) Bin.new).add
              (u64sub (timer (t + 1)) (timer t)))⟩ := by
      rw [hlen, Bins.record]
      simp only [if_pos hjlt]
    obtain ⟨bs2, hphase, hblen, hcounts⟩ :=
      ih m (Bins.mk (bs.bins.set (Bins.index m.length)
          ((bs.bins.getD (Bins.index m.length) Bin.new).add
            (u64sub (timer (t + 1)) (timer t))))) (t + 2)
        (fun p hp => hmem p (List.mem_cons_of_mem kv hp))
        (by simpa [List.length_set] using hjlt)
    refine ⟨bs2, ?_, ?_, ?_⟩
    · have hunfold : insertPhase setMapImpl timer (kv :: rest) m bs t
          = Except.bind (Bins.record bs (setMapImpl.len (setMapImpl.insert m kv.1 kv.2))
              (u64sub (timer (t + 1)) (timer t))) (fun bsx =>
            insertPhase setMapImpl timer rest (setMapImpl.insert m kv.1 kv.2) bsx (t + 2)) :=
        rfl
      rw [hunfold, hrec]
      simp only [exceptBind_ok, hins]
      rw [hphase]
      have harith : t + 2 + 2 * rest.length = t + 2 * (rest.length + 1) := by ring
      rw [harith]
      rfl
    · rw [hblen]
      simp [List.length_set]
    · rw [hcounts]
      have hg2 : (bs.bins.getD (Bins.index m.length) Bin.new).count
          = (binCounts bs).getD (Bins.index m.length) 0 := by
        rw [List.getD_eq_getElem _ _ hjlt,
          List.getD_eq_getElem _ _ (by simpa [binCounts] using hjlt)]
        simp only [binCounts, List.getElem_map]
      have hcc : binCounts (Bins.mk (bs.bins.set (Bins.index m.length)
          ((bs.bins.getD (Bins.index m.length) Bin.new).add
            (u64sub (timer (t + 1)) (timer t)))))
          = (binCounts bs).set (Bins.index m.length)
            (((binCounts bs).getD (Bins.index m.length) 0 + 1) % U64) := by
        show (bs.bins.set (Bins.index m.length)
            ((bs.bins.getD (Bins.index m.length) Bin.new).add
              (u64sub (timer (t + 1)) (timer t)))).map Bin.count
            = (binCounts bs).set (Bins.index m.length)
              (((binCounts bs).getD (Bins.index m.length) 0 + 1) % U64)
        rw [List.map_set]
        have hcount : ((bs.bins.getD (Bins.index m.length) Bin.new).add
            (u64sub (timer (t + 1)) (timer t))).count
            = ((binCounts bs).getD (Bins.index m.length) 0 + 1) % U64 := by
          show ((bs.bins.getD (Bins.index m.length) Bin.new).count + 1) % U64 = _
          rw [hg2]
        rw [hcount]
        rfl
      rw [hcc]
      rfl

/-- C8: the insert-hit phase re-inserts exactly the pairs of the
insert-miss phase (the driver zips the same `keys` with `values`, where
`values` is `keys` rotated by one position); after the miss phase every
key is present; and with every key present the hit phase leaves the
population unchanged (the map itself is unchanged in the key-set
model), succeeds, and records exactly one sample per pair at the bucket
of the population measured after each insert, which stays
`⌈log₂ len⌉`. -/
theorem C8_insert_hit_reinserts (keys : List Nat) (hne : keys ≠ []) :
    valuesOf keys = keys.rotate 1 ∧
    (∀ (timer : Nat → Nat) (m m2 : List Nat) (bs bs2 : Bins) (t t2 : Nat),
      insertPhase setMapImpl timer (keys.zip (valuesOf keys)) m bs t = .ok (m2, bs2, t2) →
      ∀ k ∈ keys, setMapImpl.get m2 k = some 0) ∧
    ∀ (timer : Nat → Nat) (m : List Nat) (bs : Bins) (t : Nat),
      (∀ k ∈ keys, k ∈ m) →
      Bins.index m.length < bs.bins.length →
      ∃ bs2, insertPhase setMapImpl timer (keys.zip (valuesOf keys)) m bs t
          = .ok (m, bs2, t + 2 * (keys.zip (valuesOf keys)).length) ∧
        binCounts bs2 = (binCounts bs).set (Bins.index m.length)
          (((binCounts bs).getD (Bins.index m.length) 0
            + (keys.zip (valuesOf keys)).length) % U64) := by
  have hn : 0 < keys.length := List.length_pos.mpr hne
  have hvlen : (valuesOf keys).length = keys.length := by
    rw [valuesOf, List.length_map, List.length_range]
  have hzlen : (keys.zip (valuesOf keys)).length = keys.length := by
    rw [List.length_zip, hvlen]
    omega
  refine ⟨?_, ?_, ?_⟩
  · apply List.ext_getElem
    · rw [valuesOf, List.length_map, List.length_range, List.length_rotate]
    · intro i h1 h2
      simp only [valuesOf, List.getElem_map, List.getElem_range, List.getElem_rotate]
      exact List.getD_eq_getElem keys 0 (Nat.mod_lt _ hn)
  · intro timer m m2 bs bs2 t t2 h k hk
    obtain ⟨i, hi, hik⟩ := List.mem_iff_getElem.mp hk
    have hpair : (k, (valuesOf keys)[i]) ∈ keys.zip (valuesOf keys) := by
      have hizip : i < (keys.zip (valuesOf keys)).length := by omega
      have := @List.getElem_zip _ _ keys (valuesOf keys) i hizip
      rw [hik] at this
      exact this ▸ List.getElem_mem hizip
    have hmem := (insertPhase_set_mem timer _ m bs t m2 bs2 t2 h).2 _ hpair
    show (if k ∈ m2 then some 0 else none) = some 0
    rw [if_pos hmem]
  · intro timer m bs t hkeys hj
    have hpairs : ∀ p ∈ keys.zip (valuesOf keys), p.1 ∈ m := by
      intro p hp
      obtain ⟨p1, p2⟩ := p
      exact hkeys p1 (List.of_mem_zip hp).1
    obtain ⟨bs2, hphase, hblen, hcounts⟩ := insertPhase_hit timer _ m bs t hpairs hj
    refine ⟨bs2, hphase, ?_⟩
    rw [hcounts]
    have hjc : Bins.index m.length < (binCounts bs).length := by
      simpa [binCounts] using hj
    have hnz : (keys.zip (valuesOf keys)).length = ((keys.zip (valuesOf keys)).length - 1) + 1 := by
      rw [hzlen]
      omega
    rw [hnz, countsAfter_closed _ _ _ hjc]

/-- C8 witness at `keys = [1, 2]`: the rotated values, a key present
after a concrete miss phase, and the concrete hit phase leaving the map
unchanged while bumping bucket `⌈log₂ 2⌉ = 1`. -/
theorem C8_insert_hit_reinserts_witness :
    valuesOf [1, 2] = [1, 2].rotate 1 ∧
    setMapImpl.get [1, 2] 1 = some 0 ∧
    ∃ bs2, insertPhase setMapImpl (fun _ => 0) ([1, 2].zip (valuesOf [1, 2]))
        [1, 2] (Bins.new 2) 0
        = .ok ([1, 2], bs2, 0 + 2 * ([1, 2].zip (valuesOf [1, 2])).length) ∧
      binCounts bs2 = (binCounts (Bins.new 2)).set (Bins.index ([1, 2] : List Nat).length)
        (((binCounts (Bins.new 2)).getD (Bins.index ([1, 2] : List Nat).length) 0
          + ([1, 2].zip (valuesOf [1, 2])).length) % U64) := by
  have h := C8_insert_hit_reinserts [1, 2] (by decide)
  refine ⟨h.1, ?_, ?_⟩
  · exact h.2.1 (fun _ => 0) [] [1, 2] (Bins.new 2)
      ⟨[Bin.mk 0 0 0 1, Bin.mk 0 0 0 1]⟩ 0 4 rfl 1 (by decide)
  · exact h.2.2 (fun _ => 0) [1, 2] (Bins.new 2) 0 (by decide) (by decide)

/-! Linear structure of the xorshift step over GF(2) (claim C9).

The step is xor-linear on 64-bit values, so it is represented by a
64-by-64 bit matrix.  A matrix is packed into a single `Nat` (row `i`
in bits `64 * i .. 64 * i + 63`); powers of the step matrix, computed
by repeated squaring against a verified table, settle the period of the
generator. -/

/-- First xor stage of the step, `x ^= x << k` on 64 bits. -/
def shlx (k x : Nat) : Nat := x ^^^ (x <<< k) % U64

/-- Right-shift xor stage of the step, `x ^= x >> k`. -/
def shrx (k x : Nat) : Nat := x ^^^ x >>> k

theorem xorshiftStep_eq (x : Nat) : xorshiftStep x = shlx 17 (shrx 7 (shlx 13 x)) := rfl

theorem shlx_lt (k x : Nat) (hx : x < U64) : shlx k x < U64 := by
  have h1 : (x <<< k) % U64 < U64 := Nat.mod_lt _ U64_pos
  exact Nat.xor_lt_two_pow hx h1

theorem shrx_lt (k x : Nat) (hx : x < U64) : shrx k x < U64 := by
  have h1 : x >>> k ≤ x := by
    rw [Nat.shiftRight_eq_div_pow]
    exact Nat.div_le_self x (2 ^ k)
  have h2 : x >>> k < U64 := by omega
  exact Nat.xor_lt_two_pow hx h2

theorem xorshiftStep_lt (x : Nat) (hx : x < U64) : xorshiftStep x < U64 := by
  rw [xorshiftStep_eq]
  exact shlx_lt 17 _ (shrx_lt 7 _ (shlx_lt 13 _ hx))

theorem shlx_linear (k x y : Nat) : shlx k (x ^^^ y) = shlx k x ^^^ shlx k y := by
  apply Nat.eq_of_testBit_eq
  intro i
  simp only [shlx, Nat.testBit_xor, Nat.testBit_mod_two_pow, Nat.testBit_shiftLeft, U64]
  cases x.testBit i <;> cases y.testBit i <;>
    cases x.testBit (i - k) <;> cases y.testBit (i - k) <;>
    cases decide (i < 64) <;> cases decide (i ≥ k) <;> rfl

theorem shrx_linear (k x y : Nat) : shrx k (x ^^^ y) = shrx k x ^^^ shrx k y := by
  apply Nat.eq_of_testBit_eq
  intro i
  simp only [shrx, Nat.testBit_xor, Nat.testBit_shiftRight]
  cases x.testBit i <;> cases y.testBit i <;>
    cases x.testBit (k + i) <;> cases y.testBit (k + i) <;> rfl

theorem xorshiftStep_linear (x y : Nat) :
    xorshiftStep (x ^^^ y) = xorshiftStep x ^^^ xorshiftStep y := by
  rw [xorshiftStep_eq, xorshiftStep_eq, xorshiftStep_eq,
    shlx_linear, shrx_linear, shlx_linear]

theorem xorshiftStep_zero : xorshiftStep 0 = 0 := rfl

theorem iterate_step_lt (n : Nat) : ∀ v : Nat, v < U64 → xorshiftStep^[n] v < U64 := by
  induction n with
  | zero => intro v hv; exact hv
  | succ p ih =>
    intro v hv
    rw [Function.iterate_succ_apply]
    exact ih _ (xorshiftStep_lt v hv)

/-! Packed bit matrices. -/

/-- Row `i` of a packed matrix. -/
def rowOf (P i : Nat) : Nat := (P >>> (64 * i)) &&& U64MAX

/-- Bit `i` of `v`, as `0` or `1`. -/
def bitOf (v i : Nat) : Nat := (v >>> i) &&& 1

/-- Partial vector-matrix product over the first `n` bits. -/
def vecMulGo (v P : Nat) : Nat → Nat :=
  @Nat.rec (fun _ => Nat) 0 fun i acc => acc ^^^ bitOf v i * rowOf P i

/-- Bit-vector times packed bit-matrix: xor of the rows at set bits. -/
def vecMulN (v P : Nat) : Nat := vecMulGo v P 64

/-- Assembles a packed matrix whose row `i` is `g i`, for `i < n`. -/
def packGo (g : Nat → Nat) : Nat → Nat :=
  @Nat.rec (fun _ => Nat) 0 fun i acc => acc ||| g i <<< (64 * i)

/-- Packed bit-matrix product. -/
def matMulN (A B : Nat) : Nat := packGo (fun i => vecMulN (rowOf A i) B) 64

/-- Packed matrix of a function: row `i` is the image of `2 ^ i`. -/
def matrixOf (f : Nat → Nat) : Nat := packGo (fun i => f (2 ^ i)) 64

/-- Matrix of the xorshift step. -/
def xsMatrixN : Nat := matrixOf xorshiftStep

/-- Iterated squarings `A, A^2, A^4, ...` of a packed matrix. -/
def sqChainN : Nat → Nat → List Nat
  | 0, _ => []
  | k + 1, A => A :: sqChainN k (matMulN A A)

/-- Little-endian bits of `e`, `f` of them. -/
def natBits : Nat → Nat → List Bool
  | 0, _ => []
  | f + 1, e => (e % 2 == 1) :: natBits f (e / 2)

/-- Value of a little-endian bit list. -/
def bitsVal : List Bool → Nat
  | [] => 0
  | b :: r => (if b then 1 else 0) + 2 * bitsVal r

/-- Binary exponentiation of a vector against precomputed squarings:
computes `v` times the matrix power with the given exponent bits.  The
outer guard is always true; it only forces the running vector. -/
def vecPowSq : Nat → List Nat → List Bool → Nat
  | v, _, [] => v
  | v, [], _ :: _ => v
  | v, A :: As, b :: rest =>
    if 0 < v + 1 then vecPowSq (if b then vecMulN v A else v) As rest else 0

/-- The seed of `XorShift64::new`. -/
def xsSeed : Nat := 123456789

/-- The full period of the xorshift step. -/
def xsOrder : Nat := 2 ^ 64 - 1

/-! Arithmetic facts about the packed operations. -/

theorem U64MAX_add_one : U64MAX + 1 = U64 := by
  have h : 0 < U64 := U64_pos
  rw [U64MAX]
  omega

theorem rowOf_lt (P i : Nat) : rowOf P i < U64 := by
  have h : rowOf P i ≤ U64MAX := Nat.and_le_right
  have h2 := U64MAX_add_one
  omega

theorem bitOf_le (v i : Nat) : bitOf v i ≤ 1 := Nat.and_le_right

theorem bit_mul (v i r : Nat) :
    bitOf v i * r = if v.testBit i then r else 0 := by
  have hb : bitOf v i = (v >>> i) % 2 := Nat.and_one_is_mod (v >>> i)
  have ht : v.testBit i = decide ((v >>> i) % 2 = 1) := by
    rw [Nat.testBit_to_div_mod, Nat.shiftRight_eq_div_pow]
  rcases Nat.mod_two_eq_zero_or_one (v >>> i) with h | h
  · rw [hb, h, ht, h]
    simp
  · rw [hb, h, ht, h]
    simp

theorem vecMulGo_succ (v P n : Nat) :
    vecMulGo v P (n + 1) = vecMulGo v P n ^^^ bitOf v n * rowOf P n := rfl

theorem vecMulGo_lt (v P : Nat) : ∀ n, vecMulGo v P n < U64 := by
  intro n
  induction n with
  | zero => exact U64_pos
  | succ m ih =>
    rw [vecMulGo_succ]
    have h1 : bitOf v m * rowOf P m < U64 := by
      have h2 := bitOf_le v m
      have h3 := rowOf_lt P m
      have h4 : bitOf v m * rowOf P m ≤ 1 * rowOf P m :=
        Nat.mul_le_mul_right _ h2
      omega
    exact Nat.xor_lt_two_pow ih h1

theorem vecMulN_lt (v P : Nat) : vecMulN v P < U64 := vecMulGo_lt v P 64

theorem vecMulGo_zero_left (P : Nat) : ∀ n, vecMulGo 0 P n = 0 := by
  intro n
  induction n with
  | zero => rfl
  | succ m ih =>
    rw [vecMulGo_succ, ih]
    have h : bitOf 0 m = 0 := by
      rw [bitOf, Nat.zero_shiftRight]
      rfl
    rw [h, Nat.zero_mul, Nat.xor_zero]

theorem vecMulN_zero_left (P : Nat) : vecMulN 0 P = 0 := vecMulGo_zero_left P 64

theorem vecMulGo_xor (x y P : Nat) :
    ∀ n, vecMulGo (x ^^^ y) P n = vecMulGo x P n ^^^ vecMulGo y P n := by
  intro n
  induction n with
  | zero => exact (Nat.zero_xor 0).symm
  | succ m ih =>
    rw [vecMulGo_succ, vecMulGo_succ, vecMulGo_succ, ih]
    have hsel : bitOf (x ^^^ y) m * rowOf P m
        = bitOf x m * rowOf P m ^^^ bitOf y m * rowOf P m := by
      rw [bit_mul, bit_mul, bit_mul, Nat.testBit_xor]
      cases x.testBit m <;> cases y.testBit m <;>
        simp [Nat.xor_self, Nat.xor_zero, Nat.zero_xor]
    rw [hsel]
    have hshuffle : ∀ a b c d : Nat, a ^^^ b ^^^ (c ^^^ d) = a ^^^ c ^^^ (b ^^^ d) := by
      intro a b c d
      rw [Nat.xor_assoc, Nat.xor_assoc]
      congr 1
      rw [← Nat.xor_assoc, ← Nat.xor_assoc, Nat.xor_comm b c]
    exact hshuffle _ _ _ _

theorem vecMulN_xor (x y P : Nat) :
    vecMulN (x ^^^ y) P = vecMulN x P ^^^ vecMulN y P := vecMulGo_xor x y P 64

theorem vecMulGo_two_pow (j P : Nat) :
    ∀ n, vecMulGo (2 ^ j) P n = if j < n then rowOf P j else 0 := by
  intro n
  induction n with
  | zero => rw [if_neg (by omega)]; rfl
  | succ m ih =>
    rw [vecMulGo_succ, ih]
    have hsel : bitOf (2 ^ j) m * rowOf P m
        = if j = m then rowOf P m else 0 := by
      rw [bit_mul]
      by_cases h : j = m
      · rw [if_pos h, if_pos (by rw [h]; exact Nat.testBit_two_pow_self)]
      · rw [if_neg h, if_neg (by rw [Nat.testBit_two_pow_of_ne h]; simp)]
    rw [hsel]
    rcases Nat.lt_trichotomy j m with h | h | h
    · rw [if_pos h, if_neg (by omega), if_pos (by omega), Nat.xor_zero]
    · subst h
      rw [if_neg (by omega), if_pos rfl, if_pos (by omega), Nat.zero_xor]
    · rw [if_neg (by omega), if_neg (by omega), if_neg (by omega), Nat.xor_zero]

theorem vecMulN_two_pow (j P : Nat) (hj : j < 64) : vecMulN (2 ^ j) P = rowOf P j := by
  rw [vecMulN, vecMulGo_two_pow, if_pos hj]

theorem packGo_succ (g : Nat → Nat) (n : Nat) :
    packGo g (n + 1) = packGo g n ||| g n <<< (64 * n) := rfl

theorem testBit_rowOf (P i t : Nat) :
    (rowOf P i).testBit t = (P.testBit (64 * i + t) && decide (t < 64)) := by
  rw [rowOf, Nat.testBit_and, Nat.testBit_shiftRight, U64MAX, U64,
    Nat.testBit_two_pow_sub_one]

theorem and_mask_eq (g : Nat) (hg : g < U64) : g &&& U64MAX = g := by
  apply Nat.eq_of_testBit_eq
  intro t
  rw [Nat.testBit_and, U64MAX, U64, Nat.testBit_two_pow_sub_one]
  by_cases ht : t < 64
  · simp [ht]
  · have hgt : g.testBit t = false := by
      apply Nat.testBit_eq_false_of_lt
      have h1 : (2 : Nat) ^ 64 ≤ 2 ^ t := Nat.pow_le_pow_right (by omega) (by omega)
      have hU : U64 = 2 ^ 64 := rfl
      omega
    simp [hgt, ht]

theorem packGo_lt (g : Nat → Nat) :
    ∀ n, (∀ i, i < n → g i < U64) → packGo g n < 2 ^ (64 * n) := by
  intro n
  induction n with
  | zero =>
    intro _
    show (0 : Nat) < 2 ^ (64 * 0)
    norm_num
  | succ m ih =>
    intro hg
    rw [packGo_succ]
    have h1 : packGo g m < 2 ^ (64 * (m + 1)) := by
      have h2 := ih fun i hi => hg i (by omega)
      have h3 : (2 : Nat) ^ (64 * m) ≤ 2 ^ (64 * (m + 1)) :=
        Nat.pow_le_pow_right (by omega) (by omega)
      omega
    have h4 : g m <<< (64 * m) < 2 ^ (64 * (m + 1)) := by
      rw [Nat.shiftLeft_eq]
      have h5 : g m < 2 ^ 64 := hg m (by omega)
      have h6 : g m * 2 ^ (64 * m) < 2 ^ 64 * 2 ^ (64 * m) :=
        Nat.mul_lt_mul_of_lt_of_le h5 le_rfl (by positivity)
      have h7 : (2 : Nat) ^ 64 * 2 ^ (64 * m) = 2 ^ (64 * (m + 1)) := by
        rw [← pow_add]
        congr 1
        ring
      omega
    exact Nat.or_lt_two_pow h1 h4

theorem rowOf_or (a b i : Nat) : rowOf (a ||| b) i = rowOf a i ||| rowOf b i := by
  apply Nat.eq_of_testBit_eq
  intro t
  rw [Nat.testBit_or, testBit_rowOf, testBit_rowOf, testBit_rowOf, Nat.testBit_or]
  cases a.testBit (64 * i + t) <;> cases b.testBit (64 * i + t) <;>
    cases decide (t < 64) <;> rfl

theorem rowOf_shiftLeft_high (g m i : Nat) (him : i < m) :
    rowOf (g <<< (64 * m)) i = 0 := by
  apply Nat.eq_of_testBit_eq
  intro t
  rw [testBit_rowOf, Nat.zero_testBit, Nat.testBit_shiftLeft]
  by_cases ht : t < 64
  · have hlt : ¬(64 * i + t ≥ 64 * m) := by omega
    simp [hlt]
  · simp [ht]

theorem rowOf_high_zero (P m : Nat) (hP : P < 2 ^ (64 * m)) : rowOf P m = 0 := by
  rw [rowOf, Nat.shiftRight_eq_div_pow, Nat.div_eq_of_lt hP]
  rfl

theorem rowOf_shiftLeft_self (g m : Nat) (hg : g < U64) :
    rowOf (g <<< (64 * m)) m = g := by
  rw [rowOf, Nat.shiftLeft_eq, Nat.shiftRight_eq_div_pow,
    Nat.mul_div_cancel _ (by positivity), and_mask_eq g hg]

theorem packGo_row (g : Nat → Nat) :
    ∀ n, (∀ i, i < n → g i < U64) → ∀ j, j < n → rowOf (packGo g n) j = g j := by
  intro n
  induction n with
  | zero => intro _ j hj; omega
  | succ m ih =>
    intro hg j hj
    rw [packGo_succ, rowOf_or]
    by_cases hjm : j = m
    · subst hjm
      rw [rowOf_high_zero _ _ (packGo_lt g j fun i hi => hg i (by omega)),
        rowOf_shiftLeft_self _ _ (hg j (by omega)), Nat.zero_or]
    · have hjlt : j < m := by omega
      rw [ih (fun i hi => hg i (by omega)) j hjlt, rowOf_shiftLeft_high _ _ _ hjlt,
        Nat.or_zero]

theorem vecMulN_matrixOf (f : Nat → Nat) (hf0 : f 0 = 0)
    (hfb : ∀ i, i < 64 → f (2 ^ i) < U64)
    (hlin : ∀ x y, x < U64 → y < U64 → f (x ^^^ y) = f x ^^^ f y) :
    ∀ v, v < U64 → vecMulN v (matrixOf f) = f v := by
  intro v
  induction v using Nat.strong_induction_on with
  | _ v ih =>
    intro hv
    rcases Nat.eq_zero_or_pos v with h0 | h0
    · subst h0
      rw [hf0]
      exact vecMulN_zero_left _
    · obtain ⟨i, hbit, htop⟩ := Nat.exists_most_significant_bit (by omega : v ≠ 0)
      have hpow_le : 2 ^ i ≤ v := by
        by_contra hcon
        rw [Nat.testBit_eq_false_of_lt (by omega)] at hbit
        exact Bool.false_ne_true hbit
      have hU : U64 = 2 ^ 64 := rfl
      have hi64 : i < 64 := by
        by_contra hcon
        have hle : (2 : Nat) ^ 64 ≤ 2 ^ i := Nat.pow_le_pow_right (by omega) (by omega)
        have hvi : v < 2 ^ i := by omega
        rw [Nat.testBit_eq_false_of_lt hvi] at hbit
        exact Bool.false_ne_true hbit
      have hv'lt : v ^^^ 2 ^ i < 2 ^ i := by
        apply Nat.lt_of_testBit i
        · rw [Nat.testBit_xor, hbit, Nat.testBit_two_pow_self]
          rfl
        · exact Nat.testBit_two_pow_self
        · intro j hj
          rw [Nat.testBit_xor, htop j hj, Nat.testBit_two_pow_of_ne (by omega : i ≠ j)]
          rfl
      have hv'v : v ^^^ 2 ^ i < v := by omega
      have hpow64 : (2 : Nat) ^ i < U64 := by
        have h1 : (2 : Nat) ^ i < 2 ^ 64 := Nat.pow_lt_pow_right (by omega) hi64
        omega
      have hv'64 : v ^^^ 2 ^ i < U64 := by omega
      have hsplit : (v ^^^ 2 ^ i) ^^^ 2 ^ i = v := by
        rw [Nat.xor_assoc, Nat.xor_self, Nat.xor_zero]
      have hrec := ih (v ^^^ 2 ^ i) hv'v hv'64
      have hbasis : vecMulN (2 ^ i) (matrixOf f) = f (2 ^ i) := by
        rw [vecMulN_two_pow i _ hi64, matrixOf, packGo_row _ 64 (fun t ht => hfb t ht) i hi64]
      calc vecMulN v (matrixOf f)
          = vecMulN ((v ^^^ 2 ^ i) ^^^ 2 ^ i) (matrixOf f) := by rw [hsplit]
      _ = vecMulN (v ^^^ 2 ^ i) (matrixOf f) ^^^ vecMulN (2 ^ i) (matrixOf f) :=
            vecMulN_xor _ _ _
      _ = f (v ^^^ 2 ^ i) ^^^ f (2 ^ i) := by rw [hrec, hbasis]
      _ = f ((v ^^^ 2 ^ i) ^^^ 2 ^ i) := (hlin _ _ hv'64 hpow64).symm
      _ = f v := by rw [hsplit]

theorem matMulN_row (A B i : Nat) (hi : i < 64) :
    rowOf (matMulN A B) i = vecMulN (rowOf A i) B := by
  rw [matMulN, packGo_row _ 64 (fun j hj => vecMulN_lt _ _) i hi]

theorem vecMulN_matMulN (A B v : Nat) :
    vecMulN v (matMulN A B) = vecMulN (vecMulN v A) B := by
  suffices h : ∀ n, n ≤ 64 → vecMulGo v (matMulN A B) n = vecMulN (vecMulGo v A n) B by
    exact h 64 le_rfl
  intro n
  induction n with
  | zero =>
    intro _
    exact (vecMulN_zero_left B).symm
  | succ m ih =>
    intro hm
    rw [vecMulGo_succ, vecMulGo_succ, ih (by omega), vecMulN_xor]
    congr 1
    rw [matMulN_row A B m (by omega)]
    have hb : bitOf v m = 0 ∨ bitOf v m = 1 := by
      have := bitOf_le v m
      omega
    rcases hb with h | h
    · rw [h, Nat.zero_mul, Nat.zero_mul, vecMulN_zero_left]
    · rw [h, Nat.one_mul, Nat.one_mul]

/-- Statement that the packed matrix `A` computes `n` iterations of the
step on 64-bit values. -/
def RepMN (A n : Nat) : Prop :=
  ∀ v, v < U64 → vecMulN v A = xorshiftStep^[n] v

theorem repMN_congr {A m n : Nat} (h : m = n) (hA : RepMN A m) : RepMN A n := h ▸ hA

theorem repMN_xsMatrixN : RepMN xsMatrixN 1 := by
  intro v hv
  have hU : U64 = 2 ^ 64 := rfl
  have h := vecMulN_matrixOf xorshiftStep xorshiftStep_zero
    (fun i hi => xorshiftStep_lt _ (by
      have := Nat.pow_lt_pow_right (by omega : 1 < 2) hi
      omega))
    (fun x y hx hy => xorshiftStep_linear x y) v hv
  rw [xsMatrixN, h, Function.iterate_one]

theorem repMN_mul (A B m n : Nat) (hA : RepMN A m) (hB : RepMN B n) :
    RepMN (matMulN A B) (n + m) := by
  intro v hv
  rw [vecMulN_matMulN, hA v hv, hB _ (iterate_step_lt m v hv),
    ← Function.iterate_add_apply]

theorem sqChainN_rep : ∀ (k A n : Nat), RepMN A n →
    ∀ i, i < k → RepMN ((sqChainN k A).getD i 0) (2 ^ i * n) := by
  intro k
  induction k with
  | zero => intro A n hA i hi; omega
  | succ p ih =>
    intro A n hA i hi
    match i with
    | 0 =>
      have hget : (sqChainN (p + 1) A).getD 0 0 = A := rfl
      rw [hget]
      exact repMN_congr (by ring) hA
    | (q + 1) =>
      have hAA : RepMN (matMulN A A) (n + n) := repMN_mul A A n n hA hA
      have h := ih (matMulN A A) (n + n) hAA q (by omega)
      have hget : (sqChainN (p + 1) A).getD (q + 1) 0
          = (sqChainN p (matMulN A A)).getD q 0 := rfl
      rw [hget]
      exact repMN_congr (by ring) h

theorem vecPowSq_rep : ∀ (bits : List Bool) (sqs : List Nat) (n v : Nat),
    v < U64 → bits.length ≤ sqs.length →
    (∀ i, i < sqs.length → RepMN (sqs.getD i 0) (2 ^ i * n)) →
    vecPowSq v sqs bits = xorshiftStep^[n * bitsVal bits] v := by
  intro bits
  induction bits with
  | nil =>
    intro sqs n v hv _ _
    have h : vecPowSq v sqs [] = v := by cases sqs <;> rfl
    rw [h, show bitsVal [] = 0 from rfl, Nat.mul_zero, Function.iterate_zero_apply]
  | cons b rest ih =>
    intro sqs n v hv hlen hrep
    match sqs with
    | [] => simp at hlen
    | A :: As =>
      have hA : RepMN A n := by
        have h := hrep 0 (by simp)
        have hget : ((A :: As).getD 0 0) = A := rfl
        rw [hget] at h
        exact repMN_congr (by ring) h
      have hAs : ∀ i, i < As.length → RepMN (As.getD i 0) (2 ^ i * (2 * n)) := by
        intro i hi
        have h := hrep (i + 1) (by simp only [List.length_cons]; omega)
        rw [List.getD_cons_succ] at h
        exact repMN_congr (by ring) h
      have hlen2 : rest.length ≤ As.length := by
        simp only [List.length_cons] at hlen
        omega
      have hguard : vecPowSq v (A :: As) (b :: rest)
          = vecPowSq (if b then vecMulN v A else v) As rest := by
        rw [show vecPowSq v (A :: As) (b :: rest)
            = if 0 < v + 1 then vecPowSq (if b then vecMulN v A else v) As rest else 0
          from rfl, if_pos (by omega)]
      cases b with
      | true =>
        have hv1 : xorshiftStep^[n] v < U64 := iterate_step_lt n v hv
        rw [hguard, if_pos rfl, hA v hv, ih As (2 * n) _ hv1 hlen2 hAs,
          ← Function.iterate_add_apply]
        have harith : 2 * n * bitsVal rest + n = n * bitsVal (true :: rest) := by
          show 2 * n * bitsVal rest + n = n * (1 + 2 * bitsVal rest)
          ring
        rw [harith]
      | false =>
        rw [hguard, if_neg (by simp), ih As (2 * n) v hv hlen2 hAs]
        have harith : 2 * n * bitsVal rest = n * bitsVal (false :: rest) := by
          show 2 * n * bitsVal rest = n * (0 + 2 * bitsVal rest)
          ring
        rw [harith]

theorem natBits_length : ∀ f e, (natBits f e).length = f := by
  intro f
  induction f with
  | zero => intro e; rfl
  | succ p ih =>
    intro e
    show (natBits p (e / 2)).length + 1 = p + 1
    rw [ih (e / 2)]

theorem bitsVal_natBits : ∀ (f e : Nat), e < 2 ^ f → bitsVal (natBits f e) = e := by
  intro f
  induction f with
  | zero =>
    intro e he
    interval_cases e
    rfl
  | succ p ih =>
    intro e he
    have hpow : (2 : Nat) ^ (p + 1) = 2 * 2 ^ p := by ring
    have hdiv : e / 2 < 2 ^ p := by omega
    have hstep : natBits (p + 1) e = (e % 2 == 1) :: natBits p (e / 2) := rfl
    rw [hstep]
    show (if (e % 2 == 1) = true then 1 else 0) + 2 * bitsVal (natBits p (e / 2)) = e
    rw [ih (e / 2) hdiv]
    rcases Nat.mod_two_eq_zero_or_one e with h | h <;> simp [h] <;> omega

/-- The 64 iterated squarings of the xorshift step matrix, packed,
as literal values; they are verified against `sqChainN` below. -/
def xsSquaringsN : List Nat := [
  526274084774596380339405702035434953475650170084232512601176352272790870027879504364159643278754090167030424436451311560384130629902970947275850614422132182749287347820368671637508062166074905301440107087488299089027553840392196519063517254251113809049678482490148097005706753412372638994723663467895380460997791108008871620622375745281056442652213161207558872563758867075705979131362465208676642199930687375319302640668467195905155347729077867780849402982786881758884962262116648067244456970487190462619543917369799846310626909517968838678557143754971572580010689718655566386738809971371309149330220647373753245752980438312170906123211063741771113807706214160574528434911718011600950771188460348494393534409785385716374410640000353325465186995110329567039227152349808089435684096762697270451269405320717583454225183973483762549223198223704905303828041598532943295934851240646530343176368398661171841808188778458345052678148907764083929120892246754616986397434692445704920654828171970097600901486776123770111929856139122778726871450892352224302739393526269743078757226655749911403434122870847682818642521527642614412383088335603107191823675001239999147250565522313430796520076452179344291080080867734756837926181482727367111681908801,
  522226312925857660602056833082037409926025196028957710693534894103947856626627529059357945252659865283819850446518756455210020374010926589326525273643583188307406905131135212870569216235257751854690149678433291231131101231768788344583882752370814947054970833373439288563417428013981312760963837069199543902940828503601228048566793466510465975453559879424696920670287083333041171385663140634363240490431493282788011940494617235580049418622433873588349272905026131717926096856980911122145969260829125125032764071389483315908853923033271685270979786499402412398802486949353203574185165750935447564225697121579351681139300977847721532009652594519857194040967212948958432195903150685649788651873188040587666558949265978595809830027405701932396713465093181345025751547513492489034341969969661833837587390082661191867365830678688210622610487479590538850757377309810253135979973928145760669760908201299700441330802566322615409454033371457310448920513212826074453436077226258139796897005188529959184611199852142017728839194212481745472312945841110433644674898980623898035249451123316738543360724696732866559978074991215975846939681385020165601173706286831858056290642889494288969132788550280600785358244412202449738996146026078415333741368385,
  554831595196063153069986104998359176718618797415461984059561189473697607713297042977358293915441919712623511335356144379338158696002938896647957488750196395470680525432956483897170367633366223316700405021105687479684582707333671826573869095088466234163549024632087721598214078137721527910892109191843030361884281858696297538169028022742895929982742671639757217899608254052562723348760896336220482679401504485963457043849832362888242757574925680773219356962117915991934407022843870495701179159172648705405211975793496388398595052529486340746919315647429530389678165272009155756833201506150569486379206118252225363218740251241197084560659109020032461006942350897668651484231138099693030623505442202434515422405653747972949836812201483278979067179658179898157166838201557783276805298680247063669058952508387571844991315576927335380412065333966287624260679389755208956524846011430583503321870080756811585444633288500250110440164452686014760290672194186378357994296899221098290578992508002570022594611241497967185762359575496137179987747345851191708699365969915149434917350326255355847952813041757685569634926437389156424329257994237866885339562592603111852621279709145600042712341551191940690254276643720696527985533287335158366053695525,
  672137296437539498462394781919514541935864995876198010081838555202211112828153752918600529488347991455199846710349727055818748030769851019638522495346318228429366751447606199914571542242039716501833138316412280666064046565887897129114176307508509010990392625827805222068609382985812321679380069263874491949504120421983815873491826560500875509310853711360236420649323975217925760088020618350365524042158860357001602928314224931547082672760178637747049975021945963095174459447646333033320417316237978669159988108029505323080494805712705103478963513462940688725328657470932449043728987862199226553691832806838227914309236327605787495300291650147691001480119332873262794864174202138958929029849478062731389349885815403955574849787369749302301736410761121622603228727602328782492488842995706878658930603311404999085804028451741528710876407250998323844195575334972672438136582537951230175085638030299700048320904327331468453049539529697465734470085250326817746937428111563198622611970733387367199938437772900112114628286792074974581687112255668475242169524180826460391334020343792706529455164696088468441883564006788587322967971127008444859184560504929707949593846080105709279204072427682364614098880563105855541907180389967045068511074573,
  323050815489419941356885590691065996057560721548476680110177840125714919151345399129316519012344586167917067950403377884091366929639353536037033414861442289034877896565043735074524585529380786997762099195531532539159083597067150189236941770700939913879609727487328037715109533293961656108607982807739598583889244038468115040762563485486019441031493758147386798972222257016099401672335394036493609007182486928265325393151659291562092143795055506257266444702643115849702639749789657508317546297492278940528994370231585286874955937198139780673880462491902382858669751722926908615829369859598783663778730571877359432813173095100860396136504473652147379935842081697503322799800938218589761332740865533603710457926525016562494599469535922585429920715188132114315942680496341860569292004088812145046028986868099317505000932521094779325620775792808691350692331720741874046838528296647570258896838479612657908530164229049846861448064893526930929424566801623527076124759970938158741932377329447246112880190023665853058207543264735281247293911550474322620676491983868682496946299521452783535753644779059638320940600750378945620598272820134006235896458089832262292768587240182641249747358132949406644092162877575458904453348387673046834037510011,
  493076521658508206689802447789763327256798384915322542648796291893757477973255630321548452375484250364296663013946501496297609396050089979260877067964364702934091081158215843831354460623547945612693953985828493639442436274679152021475154302365873586650969436792309643915960159156924335818832880879637810343205471843124928297860569278374952380248687188328814776603105624913869355599725416862792703087600344134600127588900099480810569585849608745886874770810941082339491210900387180823826338698168521083166178187171557290880039650879745460293031536446792527067682637314942294074333814932498267909084774810646200820572625752477554703463757269266556478938264969940877008469135363454479020120344041429712253441912733796521232610098322503689616731035217096458377396236961276119657863245772596315027638172631965906576438971967193134084555318027287220182800863812036197396102646763924207820552536851216353562977138262039491688041793812314880399449091622423773128493515111473956746163072550847126702622780995936711410931670726896373488016273927118183890727555282815588878939664490234298325121441512868692542547803635154153579875180202663648260205767725308297660718293963280080058766515231864008623159874169662108279354876926283207676866764292,
  139425503732800305002671472277656609121416267577457708615432896419289768721708027106123501441550138805279878238556268521846485759230151043309455861537628437156885914988970690239517910457003323840185507387176805936361353892494553232957297316971382220374682144271715331659502971405760428109504284255307641858407016859922836664227861572471778815626022869522820391172320169102384674228080528497549618123634870980304611795732879008833834149849465136905858372780183875901121857419901298575680335324000153095572498101671857821707416817930348818887888562334685088770280137165551228505131140601514921439193878813631426074780360220681976221955151886849004013398848705057646710026356965434887422508882151661749344086330719411643549157839385017499640172143948675174791222888321355184581479596085933867266694311260680491419251565497316424785652653604746099582421509460556296483121269416944203566697206443465005589463534729427605273562491134026268496855781494672760648398267911965783975187238682401825548013170504227497382508131383427342312925738099494239893120538283658123369638842758868006492593857778394234648403935379970127622563459864090926287556480949306911282533081753646120226917645444648926035764516185912748265496865102266871669228836734,
  896815389986005211938919288228187881526527914089331424384313159156021991573406015858181543091471325098515902267923297931238041305746674309445356037404078001033603602179285993922092160335569577570242041696954003184241702063617447368966302545943342183256136283995809546529888473327503248982108681552483987541302233062768145782289478596137965461697706444232229469185604568910060012720424676026208786424848303724420753717032104849324240764963422084428322533109688275878793871177403945359585530642130187058769836416383920064564686055453787847404183108389648278862501173465195637913933584134470161616240821868853825781006849448352737604303429837752816859695619101704298019190092131488139498594284383185903137752461386944055923417092846372913605233323536419606629760383932845025918129778574476322289992495796902103314144561989966245527851221779250696497699981117947275962700854874875146739975374912403118400285403899474313739485649138099339647422244428278206881912261266982963804039908205045750471813178062602870260016109962724315001738439495794679063208045468449910866982931245082965595926754321126016970665000366754831020343587611443956940686494048241643224638519321697676728927390411847705679643874444046865487328096903021999180095997615,
  787768306449665554867528657230324517690419253418218418684449564982904160433573726808824758723011512470094369432057555116713386273693455515457507106457297058140427776147446579874028371749433772272579436150785530247929050939150513274491507056794170632958006424418113392609105580754827861113329089530141478178104400920995641656160915874479477781309587132785840172911531942449704556958732008901073143127250006601403671366363987107592148530682238947583608337589788538671204952090044866083437791780270604698401226899273065476085792250483550479195856033261941543231396192240694417440124620420908512337375179282340050047549295628402991302457766445612029475519269392229161896334342493275311318297980459297582377070888508035179907283868513233505109197172601292760782814359884114093469615605456355391830535938555650555833016012094052579916802724723262191232712428304288894069706552599329467028728198012943240390468361824155547275133454618460611491523134912409185822061038672782651850241234099084200416039230007777821665371335948388356106450984193392905246253077262996760669644270722816613269957392296021923319641351756480247885466778497115216492156681294005674008939883934446432527656403797492530521994027963341826340597049181601965484596888102,
  796139636268988000189085430890686235097842192455731685923254388507155445883488014205518544637932377628383544107126608423411723124061378315145965494772683866018175138087438455110221447706585171061738454515846951198427576020340862813793286072445314495368530441006615000650956179020528979895942668975187799859302295643426699053012229623486407114751165367483542937336494269350791154638495112263273752619146270287205876471865831836315677729346118362080415635477925721979792612325556769475242383576281184631778352484390345807886174130177556744760171643175908666462499491427338055347661320695052278395761651473290950754679186909196838844083950877434428083116521150527136021953366127169044558559531728244612160600869758660483520408424747958163203992572695419244729991725894461575351976907729532156257071798277765103360151841501144793787536527531326703491687728906398656956165645115344983738402345612550511639684350490122008592508323977317780804212365627816155798851916602186938646517808116180111672546553231630111796444292878732398612610899266046762954002822565147308049106333058584816755109392666929786734086009069304891320418091550669114135699846511299064174924710780995354245977426416196869924630748749668826162149916416101004892101486300,
  1038136912316472599748821801398723874276599919474970694294914320309816030436842931726544770692989639909982540016702803629385671048149889252700931153633261299353775567968643910884917903417666612088411408287076274122583432386447906275022185613227353706263164330078898629706093745331373347340033206832704806910653602741639562554692934200013272197731183531870816706307872058629640345900578580537491392498855350636105550221189093252049903311076111530263132964044277317216774119913024501012998609065880622967169792459957988235726073821646307599171913139248845092181392660641284116043877261309531755205261985671835618933878767688568614553566772339372500446290429230457124637248058965148178087417788248376799879772019415658839288710347118199014451726664469560407416214945194163877531430952461421196568154816042587665463311299168355495441752292070350718421864986066473598167676673861857061925098610032010408799150621185856719725590604982019093634229897387333351137807077998023922107941222889699903946946333723414050445598263198159795732208059893921428840172200606606116828768161867954310567831564483990006525513318940032960402221684495440009829732965444289666311871121382885442898034026829862950196368303737846364489363221392349910766818623146,
  426566975042142206662424915753160835998143228032379986219587952826662032854687002165776253493305599878882297459181067608704723163098919174918890304816224804065757890481256137551248015294056696034102375200965534550349052258128819798308780261081391974082720926135861155577110036175405234952709761855697759265305229177080981553925474968281280251784439313456227742682187712914032658499247829111722375313372426205411400658444715445444802786358059701187968106850028470488058889723997297166759217082824745013925643825397813960905208060701016117558093008895423807592807792438830980785697272785404160415450265066646438292700720041627097873592962262270041848711731210248953904349758830005642288415902976869155800014285580031221335144354620001577256308909003423509797676108839428942963307296514150788694372528772648619978195371561130931313576985935586405150510885333513492671432728276939429128688408417976818711963029218241605164417307602910153746643326351352719930735092278292969490220008233994526206533758626898901851343959860076914271359043284339450623336143255602659918585930715884814862565383973127864132889903699793172171336447835895043562330145907119606916464482141597673074853029488269385952659820605264370030250843862071468469128910670,
  475846443934927875253024141476219823214346330796782141854430547045677613179310669626813882117913600763369254238696903438487461936217196672518123949979267599119507124187121889642239613830617359528597890499944253521381825104413095946287399763714160435153360575862487459522137830165795181048220733396596372318464316342639951615455244577939551121346000892616742562384958907257992828773097388475874467670983757832535119222509047472609886066594745987556617336470485019974264439931282726245832454838511262926007929766880049607193451292177940758114491868162593799045108792790657791392510723991527747154612422019313868919229992599145974279022963997371055143304644790272671822720093877579687476752019795679088422302878910980537667922414834500189337373096045268380989026215859331435826593945067641779296735515211382611853438293476027456949640454184611691905592035632411400938771984802553722317719949377974674487046680426895114015691255741071363032814519311509149879295232965248734674422851696769887399345668464514852608750832068926805139162636727710111319994875832186444125017323990849664358921691142416758613644154407864107214924832872301083002740959275163780420905955790954753991303920226981598146459364733401771515911276193307524390728182583,
  246265288030425442873068686582331515379315457277783884261240707531123996331546892049607252226230538814614099419827285443555642369922053548546885359879937126187650601246627239155590471137297549964431279531285806317256197856598791460697375178236987046203287668951423800096069060492288873349772922557413149051429797000657049751202959380343943917177208968722020328492192046857762487937988281557840348806409462412229022735447994636616300954968927387730768524446610769061401244131745053090206962571983834919875179518121509403789808335385254518293630301628699927613748885742621453696052676871684870029677847204939252162488196066338086602816572026017501058612600971586636281214443031582075470866193510946369666993577968259268560702696975329661727162946675812405270216618114114411077838033921354137913996273867900186874763325214682048406154921790020574987108224643825433761328909539255507920777245699940334968928746611020773030575957289544376836120970195596709480838989159150559083662240837145215888633547427477390308353890815100466968513511871668049500266359304950989557715693542837592722910485118707065235606663162744002281378172662911389420727166649332980922823576886406463354344236684513303701409630584633241072099642938049482619640791208,
  700159050012448248193829984749584106324661321573432429041194797589924080764191894483629737850078724462597998374032878212519881465959406693132433324553472436676675570088714513008434517509045821210445376586785150216501649404986141601572757768699823532682917846933049670559840550655079559365492705957007133240996168722011253950982422397231983714145128704598288628199054989049918615804753385433040593457249561764524029519645945115917835615201136213894885790031384040005823233979896191445523988860219129009862016752601296908243894840645254315239888045852582804402525666507306073305863219347623330332125332324524517094499642394932183381882409271793285842231276836509362009950139145894505982896805109374801053246009855750440561440840637031542535707130520625959160435161576628570946216578019536806563980629486965635853558320212888118888494722142073310695280160129082596811241192734912471450173675852182623628504578080295345225387935619159190123242937190343710012519636018461949838041783849806177789476359454246434888989777779614608985402676517922606874460044505150454773891799000598000713449983955977346083531067337184267235130897394399242572000651899598350398682602119236820009181929573848915829839221768780688197681366878745353310068962539,
  893778527734852660095399862871865286077706771173035770168986193216185356293401997567249481002290022046923979612078196979034376100406588140142283343746112082589082895271576367645038141079496032775186850838084422274377755647666406420156274370499684320089691599205641461960489398106318959902154378967614061942098175453017548197781555292398848497514811982005625740568100842551324502326496188051943702929792135636195953687794960784512961042615319902337866224479095360598519867603438209164756525562608296567555268543728650440945449526439417407383726998361304345929223608484512888512542160660103534950365921008771897192599533312612074343368130763193016130950683101669753836616281514253525645590873569884974842955539339020669136098379164526345880787495424314491256122009897169359119220875255266483594030505325687650169585459798210644238298186390004649502288423072113199406571757480338909648988367465274916306813935895890237623079445286027819464943731806731556648350707059538941060258743464502097073436109363032039463764269786138031200064273674842954659832539459985315482528103897235186342318060355361819804687147421495525480386946505098391160934121379325594138790400285174892089694441353121994760201125519331304520312110179200322672172652404,
  409445281987012884604333514892243275440834744754977854299103339623586013581500639712563877905279816025768037772061408251307339377094236056032844068259021768817542019303975002789307515282024144517254797998056458518456907138641031985379487198307833311385000839427633102751227895072131349177515737911926119295403993655437262714546499034011862541673417270070780770872890979754895688219440748577837569583989247270320184493435970358233443338615888245951278122381644900043626827680935678353215664926113725010361781188169336732574631158479035736706637324471283570478456323801483772868966946919212713924567425702293122874451295855672401611195949263513009547959358853748808019222430495450755913232903427519531873489389517737170743266062870024595935588233063338191374159043620769409037641920065610663203230093312288790265140677406742103923326094046076995936436252962947456659587914909792147665698623945541280816585194742853285771173981510146922533442832729299397487264383467621467723255990816582950735354001191303616357749409687665015979357805576056784851241695257924836920947989521624718673089960585463930203158325677837685958857590046487417084826617865155173725356079750563197960532327042511446101840717816810359351142647413846097762281049203,
  362744342385789829363274647476529244412173526415191324111173895462118373232590921630009219763664887015968320318315725593190028026591092955116336316088696411125419226055576597717679765335254993934800166259614698275319377524888491471294891219880118615139083984111899510660731670955136458915320101962078840605738197618679080070456789843804810838791776810397279021670340534091713054568538079989316785695147437358282833587830198946592267631688526028623025890771801000065934555018806066919366185583083476297132394925540393393600184012977576134887404219683540040076953949524093462633095926053019508716410324543434579482071200824203189639148466519192068661434731253678925836162924838552289619463942008185866702591616173799031183233821605377457662978365621276832894914084423392914927026551134675071684559683520672963191543155657379260726274793498321790203341346430320109513930688747925354306315408613442044397877108481943589730239328007073930450451930211263233731961803509620534003360155790183331520899551683206740550896984801270470737618730229344287305702530426351100135450318841248438282270432706102152327473302426034293951835527981797498218612623240707426984684194698244750216931108210793747600027648067106894461898045565386935342565525814,
  772042547347101483656730792439663051954562577554770371380187463384853005775726671105435745261589046349896967588941532378374532393646477234307244352949961700576756207508312900212400928602390729203069685499881928697120978579735678743371278515362787976447960552700067845098261350649786915227107398089164599675834598255878870004158878002010778291907539337248437294512989686952086863837824370453529565704850049175926683798313724734974958309259759433461603123380000418508231043960876458464066120431702910947492898694681307092024686399684941367617666273397156775769409919428871892872774507523594010089485992210599392242552169498818518007344537964139850565171809297396918299683779599692241024112516656018716195325463207049969880015261035051067816656797968924047090200062026549435973173316375376896293118479535545848234288266410822716707140696697488822854859890462477758651852417201721238611858926799533364117582111956345014516872191016231116664765305306172094406123574171326862958181848417849936432570296133960013421600673685679058281793495392104004300479984242156243998963638875448012677332661168628446153448751446851656995830087349513416406332566309289010853290481325716581654477907085559647017207534316371039621004281501160841746979862878,
  899693117604609993243357415102919632022906378523877964959875687907433503443276896255201869983285363705975738884231926949099624844723210366200846522990013367674674520513615074855160761872164370833658851876563500691533733196778990900239130264949834278157644746126327074027499801434135204835273809373151130466144018928061962389762211640880130788694406370924721657180404901560401987704542589084728385823499556506067867593095165262473774576850284451583509891630571146495482380243320511897430298132883586169200484372266326675185331480138156692016807075434947436364446252025519360029974650318665973488337112811505868700692815861230300963421526487827195724056122288099619811857031215579185835435781556985573449865874083863776945640873489736050212727250380430173015282706732674032049903429263114034370409357003288300682106856017236689369398181440873619367885208947744851661987637411777685876412444522317809797923027306058215748279447715624205676847942879484874347500980491708299354507698339506233457905587210921422366272525627264780478864969563643575030041819598124108998284729958004175389677762772992890397052619223473654938063567855463420705811892300110232892400982247674451114231456746922624214805421013710769890259746646326453157848735212,
  24640209731283295717368124986736398968539155970707802540295307224204242818101570873256552389949126374253568423672815005359964937986575104244859348733513309045168997384717204658696958935574866711049105221639668512489046906986310547987489658155447835322069028936380234997158981768844582678440662001941312760576887163165872748133913015270518391331599470763442861129444417051713552989587708284274766518056715120642223712283938929468516281000823796761306972771911278119173980675588564604339958958307991301182047984014333897124416292765318916975457637212796954880880961112856430506658669776532037962600425271189844722453717262471907039253180391341028849060465299584305704083175659104091230529271337039254759691154862711491284733001147210801581495170195454361536199406025856755225972317415947441060551792905504141217842874680663566632478804429309440001598013217834987586609523695378123350076667533532482191795226315960054260218891351132735618904434301663859976056915846191644436682991369954894480231826499363155494918619529763618595373511396153758193443236454083164147658384226947202220412550483620946657852757952678506394628049562873486118340034862441786276299153988908950225356623149452298841276796294555643653187971105728055998890047570,
  833441876722593001073238251753897333791042454993015000708368654886472451043212474326102760016937579456692756529782038345040847240087607379136467152778519024172074757117335783852127030367072416868818079489588930454473882596097212234415149928991629858249189530478845298001277919468130216931054141004906172705464489298347276445857898303929867910576357166837442187841343658048945933987342602566414676086650943004758944298518541102654270328671751427407653322020920781988185851801858498786751806589770681066981216334214961432624036689013103601951485640363590448126284616606439134125846038864436598997714449879860979258635193742388310140132259870263626545581024332254723875860559336755609364665811040033956648826725142279282189577753509564158099396904025180405068659253388150377751297479208577233367140211302871951427585467838214925564676240046348318475120702599715988171885555782621309263197620765208691064533290089451381211567031526730141892447576869799185480399236221352162043495503481467052263889913598954933818651704154152225204617587952687951347209035085581238730738238925658228939460618295735273227101255968265891973751551488095965783938629893771065924334181302639900577226523999962738403697855834157575593798499053489503169121467225,
  52403868660196030423673725882885186066055445080703978882519362143820448708635590720986038540101440967446976122721003839553720765603251081735306396283741719444485589340991764427516053190353378735759253420714281242234612331387219666471679163906006936631744194385481240846591448314321458335336970294997777547792878250698087349603384786491224575644924893919435176014728470174885589023227166161408778245241867927351321793392679396549365165470006018212946990457206878625858260373988011229562981886954897781331244957904254632225809556586610524965304707761956268087317605779553694344147349492413448122969680644591192327044537506422469551270904497766099689562879731395000932933865762279325921979450879466578567188193976344377272809588855901238144483542074669669402339359492232482887475716333159673664948411391859669233544515006918070208020272076725151169698434919359464096731979762615712979742536583005879929928371198263726606419718245994918406923315810140072741360384231325705935971611774962727931914352238084721396151282701780331897999596244196200989320029465656301051082097896819975904152635680907696446548266818143961561041195170303440795088228806595308008779118088134635781513994050496717897134840809393874770747383482420217635238170875,
  950611816779460153436665525099558355744208899761771540988770992753785455464307415262694424940017442601368096685670450003249514299360506692044329317775451767206395241939519931001354299123348909400501912860586142670388507142220534138295331878096529766305003118602405306954622446695353553043009434897650600210901889969205998776464940717534591591745474902616618905969801260845648971260646611509665542675745403387604181179870374860559937057262319018095117600186437150352673019519430334935901087754178045339289933254864009146374407859497630879710036739829053128346481850602136376224990110868342317501237100307489437187198408787079214573782254619386210119883854357069285067363515092991304396019703704393206834765973433204476235088093213607929630743143211250833490950875140402132792008531746506914721181879580660828863886231385634176473459059935183882430412074530981037801909783907245803000297061347504951658264322098066154964682183416366280485517325131081600190234756042279806950680404087555215025142300595324293622538523003862082174846688382291429276070049284330807950564233408969871819819279792682073922380458585819864421189108212755837412875380218295075274201235856087062290353805459410003974630038687536551521763037544753546545709145100,
  890936290359072188675941161264482039356539397638994716803623234399495674676252307512916768660631543604717836704769523448645120745677386023836174274903615365314148520674152066919388981756281489964680858835041045865739830427476701168121314539074610885941673765314839280446424619272828672501747896893390217595407387014250911641891332238362038138963155849272424632198921172319934873653278336698733457280591314747735511086459224785670939321956337312479578101738017186474024217175500357312889985474365245522232191336814250678256177820664367056260813792592163570229920542698885594179210800605759393846339311441799962239262433506568812671521489616555813359961096296423996984647475908101623756882060982838326923287280847548238433006519971477333570324138231662527783314580812621405717254666804114821659334005086852104943739531762294796813922131980824757609212521383557194134564824551382917926187656405792252984444073534744770194737922336403618679191852688921671005346694084040376164873066979953243172930253419538086358815230094973421687304764085608831436827039903328478517689326381342574389297733572984179811004604848349412847216587427533932530423390422354963127089204846936100063049350884816481181419045009287884435745953112342363571674137033,
  724745969217792064508210421718108273636787156171462751862017996501591478150546386245372136347606456725026303548879516686287741653100539910526731768322625453085067399967301619690722061428743597638454608259414564929140745285223743806107693277365363401774500765934018530221202883714346885980464695212477299831089693243375775678088300460097436466160772410697157367992266751918893514459953285372611708077734189264240764117409816754790414720914912293942640108736859694681500201789247680667689561220998006382605363370910255164234911399962136511563692998531180817786955289444751798709639203698651461686604120897834469568294963967257320106209446925394633404843811632060305860980644863225593007298996546431363533441023051379007978428475173801469516830565115975998966307649195422903554404322198879308554056521439377921411325262380856653251128003538576715447112830704280185382369169358384219520920909582126244708246301003986204536034690049687052558515360435062128175159595318234358545441312803191264502234965153418532992636394209190351154001652207658244098182538381505342513959220905439493387450759418688134834103575993688526139219673383544808886614444198202472965003381111197200474827222777862226347310388632860856858533759498282105823904815169,
  727270660355226781793281382261597771204174612142102622765772838255837834143949515068921960940137373285361157308956835549055076212993533922767047622702579952428176695318352497558701355312690504255257094083804562092301445892509379559564843535487834050299088505563898896364463137524868516985884098508502608881114955391827501550787773204072695997308793146406522107681949333958897019576337110759113105705553299051605709601526402652984721506409401184533457109499961552644464914919650318182073336852239406491189528507789067049352569879899900195835800076794908397423506736755043791511400321087237405828491140292622057611703510734502281473144687094384496736812027769580029263946406613934275134018447183549408964485375591700981412977015859478042226763148686018186342135482540733936384172770917170347973290625931291932334391083316697744704816811992274099468549946957976225188580968167649046205142213156681163746691112922679004755773698207198086251223870930427717479124798752169634408265886118784193906277604042392867595708312961107596378526096099447878309063240450474511329902626505565898199354018358616186025053991514307294625475719640940337468002880468191730538234659270782775730466242993431371047783854647217386487947425143811056220881957068,
  424856461933633731113880256390477300317454060619819184026642037058491306214076637253718934565737533845243025773443592191706994036393986030591435480152349426036105132180013073183228510214520255804717968528592396463873913153898408542538732817487780559991498881299264564323639626944442919506536652671036976979508246832301606446846567379570614295743590772841232497659820563449374987020321060146207554990653377065812604741214830343430417958716074910799095990161245849344781986434393908932152458253764274569254018040891158114524216721565210448208558555304532341215033566724203571716617061955145191272803544582302485837023744804943868825495472037836915828427470225625753141412156811664802781159984965176919307434677891464573130849586109079070863908463513142026282105583190611873246190281020671403522045028770322164081396440453664741158681808650384385235035189133213447403198964872252592340832449202477160352790630033285860245044258789250219334874137871746387797493095010612441234961777011403056176167823954349761971747920665824548413826601840165819859363797505625103550314105133817485164713933717505549483731672605936188027714144635335783844213845536538825431161836805680100243588221596148100064787949732107289427476485401409479819871803650,
  105197774537690883378264860497109212969976355905886898291586961852825574274908896242499062418503969946787234180547124639626148427463830328689280348823340301284091838768703735642652945278850957226862371008006908809439185614155554829397857119052079697103739659293319894311672814546936662344449029044158525649223413664809573222764231773500505437170222088687102710440493156858113314666833803149529227937812344536440767600515598413467515582582023354846978403106949325860206744779180237263175052659348795671735392619644855682472150612825701881462603988231127958918407949993987472578487326549560741885434651313650434039986480295984970824054803098618946276366811218218176870600119268428683754866367683677250697636046964077705592310672118057341270079265105311201209600783293778228177807969611300637647891189565277563814542016283164316789575529296906573826636230371256541486547175357905948088897386923170094742840804973654680575870748138805841830107392087059678939815839073191125870420776371685350358901960281556650806083031102002557700063980103051600303070374925135349984721897610950805135694596957431124770551458677674821340784154028611869158243723688217879533649038510815535921334415565151180140847487902659326788532811122219632544012680151,
  728925442452102177631975805681417934270569489720146504009873177447972808580712983088230611627839323053535707362412328181559637526240210727128110689063634549274073152065285689831622787485812779388432127712336427274592955342818985642692722661655136641650262576071131517818084836876675242670543511753154318039583200436406200279366183459906869997459916926254515176526411983965335029191076304321367433346221091903917922676728068647130578799627102992451029221438479686493172928162479014681392928179051116525541131234555516300203557968175045962987316893433275766194187721071419335708607865691627760434231865531985068187221722017878762617028121267383608718243805123102257599595989631533523817725680578317356084256982675250844599185922652810169620043467860328353159713142603379149604026706574121142270958021718815565406106894180818191773377418980544384717024063256109305935453797732192123295476619043867465011294066028312019760103076535305835319506858051183591783018977551658966530092274673833900852326406423714303804137582654709715131237178899230880096536918084308644190805945759654464552872949356517979040149449116514199093224425552244654090353786766153932502645446786581270299294173517500152005255653991402778441190887312430431578262131537,
  16476247031800695062992999053000164174814249980148905284514248859686901945558011499174443111553839134497969329884972347287969530328818721882484705689245507354696776579630346532633838332589606287993146701134375972549037726725903423355849306782660943527285819864593358253081565771697147432897169215014111784607435024081015109856946825828843004686755360899748377031337783808531520110350398429220441804943456195629825691040084922979930382870213586950161476434364867101163123898032796280339454000281720408034557868489825558460681268510870886344770958447287016023863437121906844856993919889094247346452179349523034312062917264825334965585165384058993233810892590901836873923911327564267006879401491892977777707189679958753605332841362127949778941103262177145848046893938236081800089117414296358529714158321649053972651643175785441788502921768973867444220764482150675523702317730671684857020101966499457732467388607195092296433716754158180129586898717995840411994957586168770421444456553731386760395529128209067038895285196114019603767328483614996884244371022037309571003318062918456887922634288532597474915689987981281101078952046952294374071203719534784646869376744949935208013308629667421038537674365020237763074736932131742861873879564,
  347143070167403363573211896267423702797688239496191561210170464904504875688889469898084349932957173621894236460631056147943193035271764076719312219875740195333031847776671001374888423135522297191944306788599821312656495706279711347594911323302346285493677360217860581960357409081602199205290797724856612037745898816819677185853170843317760621590612385705177592082583492919874090533296257110246810241660368193479838351908697198936678675457574228812092920659647048991579106211052359074899757505682477813436459413876659552279627831419105685226992246835573522686350589070268350561891664662649068734110906498144610868251305687751251162630938660180969700679414802155820084185588301190541809273176733086092352182570081595996335807274737898083635652933981095777647711607825697046627077634983144546971497765731187136960097420815361350434210016691752809635658550286026658843042682960775546864731109897454163321096194200811133115943248049884377343315289880762388536152524825577862776842552135613090962376625427162960162011180415149885333930631507674540107198480322390413102610485530118178194506518183230672517482399002072030148138379816275163775515594836826548151790398571210072466930544036444375688623228907804357495030329753168042497617316742,
  849788335131521314703435643891827667524114936740200519484630482461420560669286618119666426483654405834831601666047486806573635872682489358685493993189313211610445389998394706072327546791633739137608040657841370248510635358679317738306791813679242329370576993292766804617657301438178175211636799758660462651446431713362052831588590109189083052792915690180890810991111623057048270132235686537109413138424609171583911285478254616823965566006046733855334229516729396623139876352704805271017471922246142977658410954466721832096011547685212506971358540283232811256765184153234529166987467770223945721244920206064259228426480666561726687831582106632572615131278067685055347702711271363907101645419231574025115994892561264233838788318953798701933350895415527299891886222415899329050655113371749182167853046229196703982248253389389392621084568199222328989072665018417652122142677918760801096215075179080703367024099498859084381076015713156370021175058729782175916126730861876460434176531052247632819121971468724837194514565925801647632236486420957647266141637655116006473184736949066314107993953980715152826408100068057873390671302684472098738709725161208960827652281714699004547853591990705185762680179199225910945329432104596660678314883023,
  7422702986864444082509560153972979563201228367381195063113574145039705101140701706384515847263936013315491155885064546267157852907343355882535271779283285904165567127419295099535159330093733735996540884556270206293373157991664295827839789837360856465844133719162915753310467470470437272645330313078610084318866743640533497601788960263084132581061833387455856213314716737846862828884234424832431013352966839400467307406183549787373778807964211002427344200234205678095506784491253442905592072361595896617333560082729022320548165731862642825787407425875994957081889925327210741275816794880805246732500139068822867691557007495923790274768543910510859839195801291187987047997106271486697945752849973759230560839887931114933116436692512781707697476883171882833720469706082602279647160564552540636192107708279657610503892804980785712541292240298361147110915481257369820562587411662401391170659079106831372406920755501412736953474157800202273082425617026377918549949501131565851132942587703524914023913496584691748474618512695718374794282352477057986935008772138548016440009908673729212570514930003651887127154262340797377448647884692059022876020988024136464266065713327210947227421187712527308659266250201427010041629254263556741683435470,
  830640557191922986142788356939642220416943973691517100171461030440021877363154565562420025318032028612933802276848723477241500377480968454635629712732318696666537677800671975602965985206213377794364345765285176906234068225062489128051421182689283723979640401024313876942898146876843283236860052762604490464767128294453423002689754154262283517671090498415722768359682153518965926784625155608765538495440523978167646196384694408728678942574722089664192959314422402467629378908338632999945722928421062218241353490794278186272228969603948430483315251460395841812097464350276786501671638802752399679657619399053858501852516672424650649746806697999349586945432230779367446085465493861639169823079063054458603252792118858518540968591989836738879815183209600946144146909474934584715895377052445834856460602026177481407135835368817308030129383028208932926356893213680725450049647221274360887554380302298281908280505321844849022775457808137636743021033706341935888203202246649434894010070835122176298092887212215692057478165694909274820880436218009491683477725548644395455351296617299615319290409052537449530563730495697045313139040830635433198466516722213919059242833062677949690623622352952498868395633662026292335741192086374353389029440729,
  494806833866930409070289409527451731653227077237955378087603627882959499883154277421270436675255042666786929890970280873858168576321722340636388652189834731434287127208060619875628293719813638270323652564016583506572125197713171224876603504645580858253683427372270133188964302110171720274732540456146296788073809922453121418989210068010200552438260112678324129065241763686381840159644638299115546340407651906753149683242812615713221605609314649619900913430054051988898283728257988600784752370536068810281718957310599931639882386869364799065056932773944549959972847891551885983992978834260778765308474236860401932966986562185116582912031287716526129926485199471515061664596668014147858559678944054418650546023548322782858199413967140494728244619435799408886892419789150666527016643599938007469503176719521326718196568007536074096135366451371729783201081184576793910418017474101188389037321112925299333497445689457718082306688755893496156080768670048343709488200689556709158442286060349670342318566270736143179269603266310300782456543113056344602636379083056629896129657941370140273901141263445036786366833211985231810989646557322843269123299151685593644680553395769117708217914964737428960916396627403775170287547745648308947343562367,
  767997749483215103026954519477310931616676431993237781847589031476370197228975763563151550946973397366694237991534574486939820405554596198124648608398227413129099700390534114616402075690745477033696595407714993484021607912175656702283008229001116191466987159453569827512485646865648792345804336588890901764045005155478703455616146271820135128648930683588837859173580786519813335571971610810051668105070490771403782088182850489593400759765280095268003385260563808134053942493641269771462231001217194763821200879609587895572476857175560075501979903550196097946502250922786474191127935681840248433293062005965582968763922750329079390999301508905349659498897637030614432550845567144328162251303524425942136889570047769124713056360119954773058227538153196016573304710025281506752561561234730202923150801894023237969457827440611270838674884956993512563142427084454382672695460170136206583343691689940977082927372218860499849831451732341042137313089024072734007239054736101771764113038802547820244045160902814269383016614741736769288294023778893571333049801689258783245377552895738802497031467975098858932601656978306890433512987956984987259006086665117326909830311063312726678326120014642156829430137663762922698157237127726568840450871353,
  236375580515000724886695385287401296023331623498722761314238138532458531430062760559076628686615239641022571878556716753221545512924852861761268291860903252432995352590121382698009610768866218045124116262822230125728438850699698981061314732748166846156764731688505922316167597783885304425403938378516946949691863036464186600003522625509265152782111785235190779954059014979950527110627446789419622092476099013183323336951668412606201966934146976398570230165125491598180312158837986658531910780841549883327917975108665243001520054244830422773240817829144814501720414184539342833106303553433207237550528913328484300895772677013034221362726111359423458752700222455250570464635713198665399356923780030237966822447235161219796414644039312777259809064149737793285336931443771615582774517827300559676538543203398528601215900665203060796803124832548519036567539665382957589389925471544836494830829573847664699304297102516359147234594560397825655627419464964468804659904954069946869789864150475688110694085291247545888940992962944014511101922563558877602826305137029804004939426376730620829546093732917515049412209649686875641577630164338271266943883481589941844339093041120170937438045120794968098532612201791870354920856170205839414185722875,
  41701856877805406377975367714283953745702063643124610436191890995167133992063253223625973368953961193524007328067405108970596090818276218540748359616498196994384978249417577593420988239541887219447818511920850979028624350525305007249540648216727041898919223950598958635795825288786651684700861023657347753437451930674933923182939476892766624326835609529421668666734505742391963551017140883267764642197764207975614976649595806082119907819428302128339129080529676723612242433840341558679314539015552176187817797426714730742951832246652862987958899616800524354638400936972238629235738924584343002840101604654108470624879673318808351385284940935528060357077378328477093605045827925196056473352798564337620917625560681466246401753896467492099687685340113689519075472729011671477798828209456553848026422559432393017687464027392334331709539580874802170227763492058317805509420924656513065472792876128974878783122695248560414081213441633344774536704125571243705166694781079257819491520119520192786139000247776980287669175548320365636313967484004571335168778553359963646015465108834857155172516938178506571469142789104178338469577377094768657891325124351947445345514883878050728161201532428002020928976550848156560403961099801076480124988350,
  96974855339841237473294583437909246455785103417111289260426219795104539790092281596194460603902192078198366825866748233805561642668293678063126945225481492240773118685748580440871147236457833681413845763414546173582587985836003393550035560992044204687586845448501112039358796478706846405885476698476014784350201661733096448830370789485365188410775487500444445284626541213920078909728373191465166884277265131143210142077484904471276416802291437975697270149860549609493400153913968232491116779856322881576751846419402940828878861899783618342282205012536299357723962334329073144611584943951115544730268089810729031028461539469885959182141547946348778588251401835581849107802924259368821419157719063287599610955209998018066761555540823511329419443793053063895944317670883566756119899950027291050978258655722700367528168583014864350025599327267176495423814148505992565482709902800324457628392067857866400658146945863054778593654619578870819068089899950757437520148979248898859977869578187140893936813448070913556081649941349242438462028505094797933803442411045758561435127201347755451873131236857366364395532528077063190547570106217282887693122449406143690927867885465880618351356682822890673023034382731895075832330463303144207444655769,
  798272573324040258534621832752355761992423378000178506767169712638197145935798027546239150247889283185806428382704582041223783639916961225346757267533712643041623972391217431269614588783770723870318434126080487215377924181461707465927342784290053384120537283800324600481559988512079089073482547655609964743559591941128865030724470854161283505602689700981204846107369536864401568206972902594190593679650453662368531889398608077929521558819118193369182065175599534189522703345125523685643052342168466390155705187633746269235655825834913834665471279753617795290972538620367001169290152746156248047626741828992496750466207666240156956486221536883482840534861464941315263518360847054527902207681907907745526883318279029572079628530041689613782454994240893064667260874303201257320248944271743073189960283443448927381484327781670085168440503258853137696512554826517561720522745516812433053783260036422522083650977756333173371848366453032833135117839566814462810461684158484059378145551502592311517785452001532529004106303483574532344892542355599716307827591773865904777097334182299541631742350005278108228077951737337150268875137856609739404600515673731530751951893451769342759485269139085530122605382426598761403168732905358121701909555068,
  99273765314443522222773142989884622968037974502532681488188565061727596016654102522834246682754370786161315668979696212224093424612864856095166486454179916445729407134587422578540192206642474489998874258126597884289503135281044695517233019384770981875451265423212776325460549597409293079912327276790738716737109249779034014203952592377245668738333432917630528468322624724196040811177154331370493488744023382497270368548942517174064044443177673188053834216293621654771970342380079478166490965047782487747623474635887589584590507562131318654264156162191435487208099899920555957439590207654472450678336688986432571072329917397911776267895540662989850128890137872357350229943050009985075220266585787905866486411359442626555778260458539293438270274042715512660684971072702059502114801495088956215728988082345135363769871771546775229860883204937180597212922851383137976591990602960000174215406994000250868310275910016827693410893050114932823129679315449329638116477986165806522206566412982101929223059492053441359846230159808283653015750057787226016815633140860579950578005805901052715979919588683231376234810021785789034351155032455502945597482456728677375227185911270100561389229978651710705687506117717467571284461040442757214537044055,
  145936513184256904072020738197385747950577187425804403924600443394855505296885069251208402775451814516573592273273436842679681503472692505462987692425177741711594580792426831818255699009760142151090855122447955013847540940622826805158724008657659419014953585805131283562866008577866300024680127368161351609044829669268765158838667106669629827365039871893784225596372443736993342991886032636873020186973429607891135789896915142695788268611253482008989466951682535900964969269607358241264426043129958916229710340028748606762902783559360719036944417024884438957088331984275585620870475071817262866123387200668357370259751908548394379087588512387575763350407636225180066817597351654042564220141576578323915704320458070083797149880814254568839368723344494357126379164397797123604655307166136026389785810969371340375133284909962784911813764406185625714817476030249174171312231603079908665543425938427527413853896200253413513886078058501028129209620327949267581522791461868338081746118084279068951519494902539530363350812568818380432431000670275788035290486763507143126876059485169309254850617030042619114357204423347721797565765486019363017876971968237886582097881370356448636491155465513223217713976513213532798682500830647309250839196684,
  553351563776821702419005496418954043702128373957646403205517919157404275445770226651519726418613213276026131809093210773806328384975152758055707549026664271412687048348320760401790693804155127342266870820507000645830210754128252247876608977106430952131715240414567836741957735595938925382095870186313314464838142768160899359349954067573260287175794388981450247833357733122484599425099613018940812688804319263993161454443029342465679665998243358475675875610964521955980627328430183220221420574945541781597941019679245463755979932449968375464547606717331645217929972894368824331478440126231829760567958038747746260162922253155936954703430656494327535483595540830225483803431423615483342053999157696747420336232830117178100876240361575303929914642536358393744166237700868193745309235425449687879067942153539514950163910105043774759196284570799098380084074348510323090206293294970202858693388776895362583029699554203218148993367559336471388722958988013065361745088956264075345091381297909899498552284066848379320207283698368387434651728747849117834077628215531877032414677624894552201705157763095064515777521516815220941833301747885832250844021318341402237449443995666707782360818782925155944202207031032501495927938404157504113395551834,
  690836520640811870205660955608498248222689808679635579164067272762208755342478489477337879549637633845884450314744636522629004234702857801571777960237746222516361710845919827342378314707725871214567772715735462662894155017734460724852895965320842015815365218917315395182754864820792481927532356386018641994343451347734872652374447410583497651665898989698053472159099999020308459498001170706032312035685273767335378115445701745637329825305983979012052610972195997507338321160165027646119224555537541694820668138055671806365760911316194379597965496354655922770323607958225087756407728345041485091777827528043783197868371331347719257890025387125455898634387651333171203955230292760931526969967857735833012799500124632851307957647667032560091798818919100799090157702101890345512295315777517858707410020509833482991354585479588230884866382502328570590351040864780397503428970419359431014790610841221380891423437348372149144952650210772911889956498929534119616927184781917423641185178623490346397011720550746676557421103493723082905300555906995580483809499673787914853857181722313947137454811480076368586109418199364089164489298131321702389521352413467062319797320782080002077868745431684085834118625369345355874456006138122607562191095244,
  970663822323515059678321086931160176636264230788720714593526146988032268488574797541142523626111695916996161851188974079191534737711165725154340882152984084273152438207116498904086995648809536108716021103359188456052119356239767553321315273144125272259017540438736401321740873937839781982252131456275807835109841835427333789467798601334226148191999490833275748787432331542618148384058471094795653015729945501961538465247152158036385418399836402509401123160214399727704449278375557191306904436029799711194162745246197672473647614615736460580051962290926772199208498534658460560792971530710034347071332322622484875628661971267686377225709438766388919885649091246186614301654852651906967676056199642021526813243304424572465532353354938859154772871748436618681251948085870080194371383609211418155532838445471892119179559615795902347961344375957600246862053455385259802810298522029391843281892602124515629930287005565991067106951026613208486469791435153132476565277117656320140153605501805323138135159414362812011256317858550451889941420305765143781710668582900638744305134837312289117699620210494815651788068710915008078475191758534296532260194534056514034714961045496857972781589067455634849253787172435936251481743383206217435935822854,
  950048200333452614343176762714160840671808006038364434535298568567537433640853681663492747324871680945875451332313317579935437090301660746323936428838348642212154182672169912208757306070287087154003288445436000840009131623142209827692763673547263597428211015546124923839003609542570069670940733304270272252912693648609551987567430031592464879554145006055757959448855392599745538126164574794075677784224868472203822462093384676414679747351652795905730377049212543309650277981759396152046898601769356381498324153636970712330365288428475667999974361455211383751353697106162698719011135057637482021005389364547484163395677380767939341192364870602865345312505236687526554198462668212720263987753003129050921772599813723247261109138633456007554797926235659121499581472584046866468164922748215221703945557100449584660958827710909078068854385346856822513376238322429482008089617843143523066645515922982689305724109882885272523797095994480451509501948039213134852883528380561919404391620974223543710907094884610116687140813731395308981931947082220098420852389380708171536693504342089871456474699036803899859795453303707368618197173630227845151129639398436929961321500784687092493735678279171791641770180768645353218931631049825370782227240303,
  74767816765370138805370445612647655506359646505768541702362670120254871400902693110855283883833675975212428983438959639364076134392677940118541605577952277284350878271948810655267551903214010702574641898784739080001697322976138294816607139376000717008657326717591719878528689579571640596237286465899009471270334075372526734105745165118383725085442948897779384463609148956315580164152978617329897098468445721588974124294411884354417481016376358560721202953461822932653121906786671223118373181864254683738316330002452107438008637729405038119108656311539752026000858713137010570637584431145281070900571429246662991011517756635424521662461759775201934409089816389460966066211385792782018037685764187352022974366201845998581529164078070705364501374259436494804672239620209831450699303520854653225916535463942776074975656871312076348556165344950926657218657206054908945821023649453425356778219517543226152355761380376415896050468306738603882508500765641527485656257683095857176566175921942864280473028713043495247783453810249572024067118202541988310220393377462057595373631805691892175256391814902008939772569363217047742048243772852987590049782223501060179674105211734031034013230179421593130146066253160842600874075100283947105103572112,
  606080540158746773026735445651770659321344369066799852416519805051299021126187589038385361343208817072935012597750565315249119729103681103557579040320748912803112602103162656081127076595633837563903974174891534156088186254221220664975259254527395895076693121769475708738711279504894870061261845679665523335847295570889842048564025359714928679637380800420552530033074571445694168293531564092895540341772462442529713811254354245982616331446584697653686741060185404420882300438098207031883112766263028341241988275688674842759135945439645373932621917351407155422758725645495669638180583300522146148844407173707109431520106973459786833947416674190590355420612418965572679117025267227024683398565162248621903868933597397002768554792553934341470405267896264582782002028105330229840684488767004292939879892563124262789785635147490203210410405791182950365286943022418233204625871619107506958731580383072397868277445383238654459459936531966094800045419810251699323823459858552267889503775026151277012046630731737630861833901815896038191354661397179934731713383509235706829234329189371168770047436033848753458061567582529228595367654252920588924749896081991768912671599230214738237721516143972371940765191930994236804571538576821820047344092560,
  184504875069533670288033978432044874767545555291988659744548885256889032356479627300672206591277167436713277145233633760686008730419405837554204605134480790171277174773047156488794061603921061738476247392674799043830469157144711219817189323210178277780586632624095442450840824435438833409153373224198589992894516570451096116216107908620470642711743938936820573785075364903785880119731378836306437937316463327500782098910996866641825496137180557432190823564765103276055359068110732853901072993111821170201952856564021234363691842290457617400972101347213505771667177203543872842282756845889295312111761115756939008420881530217830562567103547631265170166973106650048108745986631122946139223907573470358396553797723246453236388782957834512918088119038045256024074963859108244032656061463537373367856860412723057667463865435690174582039982834600211616415446496955402440817729782064454377756911737444822938559369521077942190742463891497218301312335424850455021010951436778431793886530830209413966723606109791648146203467329694535278956236556314623310233001575707960027194209540082596095443238476326428855337468615170277035215129021603078535977366945918100017550004002234796089584513392039266272416769021487452744831043915928996669376268106,
  482995476014218568072555150370826711982967554498694870375562876063102387877918978263076691713136935988240313317736251329878090310282041967832498966622411988001002161203292370160508442808412988294159378994568505007733222766906191342195614810531982600121363574740930552240029719224109585846110686453179006481593055459989085874684228008019360944090108162159537278736576055043540115048488643515707896350678476427223440727320079775126985920417052327293893616140261190389826389029907620385826021087349164077373095778705122889953021259507232635191757355637930812821073568426125681876104892053580130140171619719975074444659824905815322618776163979001991040798583196683487619896937822419440853243463562738537586837180502573712917112537908251896692987383742119409506211285774581879593832257720043201150763112255018134075935672426979814943569641059088514318247812556282111891460866733533314543927361638465991646311813013937474318859251822957033926424389719532356105597151677632705341023748793049167500313509600159441922402291547164712106138592038453839032317947144519918066060189684520139188586527798839440486536048426039724753184435254502313182786526367005961256486298951267689860643643911715604586075333655448642568412847740481812696172047962,
  650578107844204115801256632328287268410828687997836472120007714955328013672365817907178202799207113451579832264616966422950853533019075053141547742342945214053932688600202393432876726582643207052988355320503841653212343353788965003831999963076832082845540190889049243298002051157433814691633390806613314928812802749520796292622255417462705081058550660114034108108256778114455333017839280561847601465406925098518284214893008280822735224567123747221793196623021576708288500938409423865901544670095309691475019129237480944208813725702494124363191588096274643269119121774975788534237348809488101053126166372269939679873906430368596310792332687657490020654255858690208761102675416954625528433956290223082755155088955562608978895450502636599031260057376019301227465796351939890685208137923370330045750748955492073611765048236132706335086482193617541639520961299866977196324442918960334791008135700390920889288087691473612114398987230048461991602526222139558412242832240444635006059450800046550855810411408325202339609021031198379551155430276799071641100555623163032677343927294689182164348510124554511964764423899013561277765631268909623043655305251855663559393135257521111615255822802890994471710125640782675357824302734507537111727692668,
  268032143176963596224986644821126459324926640032353675506828827261959159658219883777788159242595907470250167687336306232855993771462140762641423458482509354801704553342516147545902278929712771141877329147403628800943526035161212236684924600258011005893077915006646260165718702509200617661362029043505761357897305088557879909944611520235609140177971691294263958134137634422040050363586396499684837599676932332107771557297965195234543285286293328353312562627917041483317803904103949897453813223908242483628987236525067712266346729290007180373474293035726425841495456116638298615945219273597995319303217239060735370331673842456154339036194879141160011013776891438718525558594509758919146370330907280456456856851499663864619050686666907703044922431203199874904325288102603598587946909666812997815621598201187122651950775681305130132183169915185435617464603794292516839717033825119419564844928652347112536964744333474418833509603460662140633774046195520644264557418356640130371664515865978032434287859691924111436084223613859892288202006545947571354254025824797200490951823787481713474241055713420193203357782269023108354945346839304087194439459173876315683551997608808197758311213914831926608895464187884558157994916304288488101665995788,
  28202445107277772654338136799510643152129420951422227883218028131549209509437843410162643329503776045036455420881338920912656415257485481318529955217953015803914818152043498387767406618991897279217156135774586465296025767321346470140358712509584086643704586747164169292830283355941102852790339156265405610056801411390703507746075725788040917887874921954188180461601105846286954502818078183636039204883472624622419995370900085767097674670778505309397961803364010724856209991554817034311200528532891682873283382812410542221169414025654850642477450233010994777725452715429255175008836762100365381862814737593772087152704589703013050353553342116979623683428898156273047608401704396838022540679787013478668108388902898138335438068501750863863429124655648201593532951111162507729755983464904772771950909841999895144770690889343376581226801660492908276853887377451584022675992456906934272516916745363633176892394891870766048018949862967544841504384216198638044644140712416694861190476108689614161312984188592003681279373156346847217675738574355584985229873253540668190248668947297467608852075510463112906107687876672451589965339872863587067640442417806688010808100569885631404845698822300723894870369724487382553552260898075414992722318605,
  445326319466353045194093529424551780694386011803673193876132348757309877919482954208053461020390113534751211307960878907282690905206716674693567080058000114194664178537315496567864634114496774250119254398285837150325849682153231506017901414443502646838720452262458145956942777722540563011776590563210726952159636843823335430228376912846188107185255325492226643734992058692276627265810127075228877820427013287069045660485085281621386065582849965798774668881622625886954408341828443669737666554514323083383815127485444245575224447835538121340026585802139735027728824820674319840017118512358561585633563378895314770364891528569013576825034146824813910626243723235312925186075204116612371833204661364453229403426489705174730473978345369197317157065612794877308698022843283331369300609144563439426491953860822367294096293567358737504346166655543575716394738038681610993097115113576545080649066946967256356298510440519278787664735087652711345077817782083532712301612399906014942053967964993288094550026272088031523647683592366972063860683457834360519240296979996121972837319944571006584792807778263624412292226792919147478349358999444662498253073995605390454040027534002333321643846744506536275247533003818960514478633978601252978975262431,
  851483179144253821608106119191252692469627060425215380881706655243220368945331538946523780097687238001574165688605734963032235559832114811050393623918491423930100430705383654412213054961236898595028493593436329456947297447828669237159703997213771625314445830433268987646764332761854626227659973385974760330950093362544616461559098678204417338365771358906440037282536042732145808400501300498184752636410965333832570235611239102461827654328764704086795859301034950734839247614593686814781133511668495294047494795665795509745812431961818031291422863251496809282127066262303298584474836388170278959277344818503008208554728615159729544233687871936844507515338086813313648573320216053657859314492837020211058382451560096156279569587275285007547097024229110046832168714461704368071084074607356985207298370407959085752859707878685645955671355325634804635249456106472607831270856727715698778532782790724514148835301935611469176427486725321418548821721940728286093640875996141251014254799172612215834083756314432168694370590476184500676397336690646621630723324954674950677962291875963142267103330319671992253689313047564812997009147418870942212682504566513083704547867393910514815841004851346622449576561009674269322451346423873202858157341872,
  629942965532869127974085087643669714617393608063360226088781322829217097834416390885403743286622055566289235409065043741900381589957317243668713146739433007646194695764595517927416582300757945988095138949774960990215181118918555129470883123063065165640403546591917435396065101817232006556471331377304809289769459206550568803651389203911820426121309487573850388864034511385553532178126038288790812861034826152175905098642728591506592883671976712865103487723543793781904181198989608471733642380765633248987971007943781007769535582493654109799105865366182700932280023669760335622295789572814295134116238991663570027826504883310209961830500349702306339232804808161341667088547935241203372682364199536346633779991416132354702834194488919983797776857998421163618154663416271061682862779800533898713258290810632041221333363723217812931225517005577143112460303452186556012022985845931949563785438702923808625161269318241525613567211742606156735737218660362402073509487244514828253240348396707922950051573541824972513168882507887666140295763498243562648415950069097835944046875601346228682748004276395929215316191708514345358589229724427551701639009726613541946042207319587813108361443624386221985748539307507328620326394643131036202728889549,
  865709492249274457133773564175389286849860791214123005347111589578804007578885101977207835797911448083893641507122375489221661358805391277444187795966223380116279083080177012432488894916927803637821515741669141444363815257009202655842112951066563808982128387886493355533002536648733142978613925423652886342026954279714568829641547808686124925598696324671029828189055238145094897258601628574386152639357040052623255638089571618201536617155993258771470851764408252930897183469395941763688715883580167516847454049499142192638906768402994963118323588399235016126283644826340055846736989980482667651893861237625985839117907533113284781485599321521933924337655882520866843994882305194587118110833841698868433666057958105060439035275041835835093738125557970206222115711663791000829927555415454810203423021162326883660728734425630307652684098561362483149564306947775714499843192141025404191616577904441752827082226914852079802450598716218412714116359738689763653955628192001731806262948520027742280275229419776570890103232184108114704185888659245452753921709194509716573141225202387064025563251911703629404789330445008580715517127143218388953395189576849388819830380749975706572330378228021736297609311192899165914754942832588633244570282087,
  689188697024209127866334164360952871834810594719785832176167504664214740155809300255467307125850228447011689459516349783392610092540596439497971618474535234189058366267710562199853052393589597926065049465068739413512748594019496672190612467711161318383859061902314410603417147745268602088405823633264443697337917679151302902900093296623476139490822053495541643736284278554513039404639424964370555147992668947792321837484286910070264407011031475733020006661970765517949738979305362280973092372388569069309471638813386949280728321464263154546251503563387676791443002115465901940422845270722034845389378122820014363876519381265302691982286432060556548865723856680525399274158222605644488352106208057527321914428932000251019421957933085466655686176418462616225196947164211144902557753638412429405758309445560650096640370877802335888294064276810288875097740868113354275875956833603868587716443550143400278204866153791217605328970308115085302149089621864623539824162055496099767539851022551246107779717657807021245413255470954789266837968746503211218741236893528434392442012470665197748045812312055457106489962383837386499859571877525120446421512153785142741059211461802312961018676636440323849679250718060110436064029816069962712232310920,
  36631430275063664336992601791502102426224195145722151926028002264371529901554643656081718403126320748473625623450507843802057030669877445675902283234625336672623202467001080770443000970703480760580457244796811401923766910024727972091770550000098887798517408947727307740694013922160041871358319325739074413756870729131815464920565991848420205796859659027511504458877290138013815485366443683767339452933646485879810150114522843920712649157888740591000669798740308091279896975248943221694856109414982074567728581838549822523919504485763470801136908046474041234708064879417248037601308862518773676041743157209627632144411451493974983757945603099686680793816770612000554220175690805684555500942698555380867237782016436939654333840612595959030984686878955275902340110419365573482921233478536198683565736063696105685409500353014617627810628538777218119744838905091498528106103849295537520597274726175854619427119352281589092518145952618586805713123759605109261125319094989453613910576340667700638301146696880198903083701703543239203226268000151980392550473753035032475443741341854737330939472197667793441282016103264514487610373270429736920110418021769325510791147687134594322868403556509555089587233271412550191215660505608217184219384181,
  387681236176567204827890246627670797098532894011048609667076302627304355403912292133215962074500510977166925821789298296164706931256574984681695270577793328554868812273343196109051011303113313332574045576370110086475991279904625410011960506890970856869595543033548279737386836411247045042501849055588790800486359452659591733595977253601063492539500017299923272471796002772437525632837509021178730246380114741039116404571891415270359381733356021136082198966597632890915971595252144442598383072018778502247377631541954345403122674980174686719198481346411451938853939882457833856969692926287301920832082176386430308907008320196894777528205791485698907983822204924176306658204516053765446884654989138650159705417061980218016092062849244854181859679326489835977247943809425017782533807429181979344484595627947844385678804074200137143970223264566199312770210471090129426904319700181063603056769587785249644742570271275497642836982792837894995760593750153221798404178441724901221474378361780567726098781855785206887778716116183012792058032255935731373037421916976961302993835024980637820500827056718817574675928211061587280005314672251767071393250932802828101733809734492510455643117697380726064468333172643939260515321612064685765263945604,
  482812120756856913767373907237638138283800405448962934349935654980916747998503747612882487705161474151960909372479841525929458825260788204508801583083339932164187302359969391272502649985215604795597149356223224959091240885068442295233247590005643803591869843486203425537551442522131095814096574115832212418425210370435298163158034508355221238876343312549698977684043472293448590827178824726886137771894842585490612071736606379010243854574958568694575690181509107239957540763674018346934849550300463344155550166985701729890239132345685471665268875406193899256336503352926203306052811384102274879227906657989705360745725140618077445701934168734460116287756555525373234713936190884634354768688151728324745557108903590701965314227962883680174740847050825675546725458447426751454981350665659588624267157042705741531704353709226446643616288021636120141887963188016750425052821008469574829317518490644583758069528374433179564991158077827231498349209475390010592683121415358077367784984661191822692684065663671483259023758798705762347728426292273067505545968252867183148991150379758143558703186684835460053006961275472965396917282843191628333287269591729551365433423151378295098070717074280194155794387042963324954044432995299517835735481492,
  55199148413502556899402727718758581621517135058929299911096211467176284850524623850583493966260886769062324839529454742787458997297743779699818436576009497708825120648768032444137214669809232867877815425580216385749665521887448712210240483545058189634425505797193032791576519384537868209974994019606251732644914265242171870279252560850370515962088748739602629791940539007107868234129405997455017191718466394542795947192369786096349394761466525388751839219919346610533697790643738250801739827365789201336628701809054676599983188878315814072894354493407455627231742215574549739128961050246005869101458058870288649367420463661724705959474297444320337287209478279681519859518313941603769204817286370599728629274609047252349300860049705200044149701816565479099324405958906409506426064668556292805564320146796084258645413687841351803984773444175824152693879840051122390940319601595552767760578948078791297807863173061081376634300689646815986242610146450445995310519101716662021084398856890236282694865498444113167068518412221196628834506116957581205068064239950634509889769062209271276135120322037458993055031418737076468360662968345497424987347817201882613472931393083908977409344168195927350184162609626718997448951423424300116520288240,
  180840830642382600987992659361058600701530908946120364003729490069500691919861265954588378128542929676987501825080265974943384773420728617908637563336919496875997126470839511244982334311559339437985675316967888295129436063073846821732964984340795513607834804702315686350349993434009236968663886204078978461484940250699590759613572417367303411334233424258269994321174935180251340410774410793456687731203267076513362651450421965456104540851835264392076138275467275485125452544650575559722766772287973936956343500027691821772241923307711719910020197806761776078200147875448641527317431080102100948837880774705530267426019238568625218432930822377783481126280547925533822760235649851159275005988870224216512864351212567504411614715491080689988265648499150225675158253968908371505276989551131910975891624470732903817768150055402118889837222688992043185146475031120823110713759142640851310065559969722739684727515254945484454783414913093509047102643277024003498747584135120799194336027061007431130837125194228939107689182922871035922099696413835772032190965980472162216713058850865537140568390291838099310885270082613762845197569805953250547753773511752830131990068023800677866682694905013159017840465150437807758454663267135343599653006326
  ]

theorem xsSquaringsN_length : xsSquaringsN.length = 64 := rfl

set_option maxHeartbeats 4000000 in
set_option maxRecDepth 100000 in
theorem xsSquaringsN_eq : sqChainN 64 xsMatrixN = xsSquaringsN := by decide

set_option maxHeartbeats 4000000 in
set_option maxRecDepth 100000 in
theorem xsSeed_pow_order : vecPowSq xsSeed xsSquaringsN (natBits 64 xsOrder) = xsSeed := by
  decide

set_option maxHeartbeats 4000000 in
set_option maxRecDepth 100000 in
theorem xsSeed_pow_factors :
    vecPowSq xsSeed xsSquaringsN (natBits 64 (xsOrder / 3)) ≠ xsSeed ∧
    vecPowSq xsSeed xsSquaringsN (natBits 64 (xsOrder / 5)) ≠ xsSeed ∧
    vecPowSq xsSeed xsSquaringsN (natBits 64 (xsOrder / 17)) ≠ xsSeed ∧
    vecPowSq xsSeed xsSquaringsN (natBits 64 (xsOrder / 257)) ≠ xsSeed ∧
    vecPowSq xsSeed xsSquaringsN (natBits 64 (xsOrder / 641)) ≠ xsSeed ∧
    vecPowSq xsSeed xsSquaringsN (natBits 64 (xsOrder / 65537)) ≠ xsSeed ∧
    vecPowSq xsSeed xsSquaringsN (natBits 64 (xsOrder / 6700417)) ≠ xsSeed := by
  refine ⟨by decide, by decide, by decide, by decide, by decide, by decide, by decide⟩

theorem xsSquaringsN_rep : ∀ i, i < 64 → RepMN (xsSquaringsN.getD i 0) (2 ^ i) := by
  intro i hi
  have h := sqChainN_rep 64 xsMatrixN 1 repMN_xsMatrixN i hi
  rw [xsSquaringsN_eq] at h
  exact repMN_congr (by ring) h

theorem xsSeed_lt : xsSeed < U64 := by norm_num [xsSeed, U64]

theorem xsOrder_lt : xsOrder < 2 ^ 64 := by norm_num [xsOrder]

/-- Transfers the certified vector computations to step iterates. -/
theorem vecPowSq_eq_iterate (e : Nat) (he : e < 2 ^ 64) :
    vecPowSq xsSeed xsSquaringsN (natBits 64 e) = xorshiftStep^[e] xsSeed := by
  have h := vecPowSq_rep (natBits 64 e) xsSquaringsN 1 xsSeed xsSeed_lt
    (by rw [natBits_length, xsSquaringsN_length])
    (by
      intro i hi
      rw [xsSquaringsN_length] at hi
      exact repMN_congr (by ring) (xsSquaringsN_rep i hi))
  rw [h, bitsVal_natBits 64 e he, Nat.one_mul]

theorem step_order_seed : xorshiftStep^[xsOrder] xsSeed = xsSeed := by
  rw [← vecPowSq_eq_iterate xsOrder xsOrder_lt]
  exact xsSeed_pow_order

theorem step_factor_seed : ∀ p ∈ ([3, 5, 17, 257, 641, 65537, 6700417] : List Nat),
    xorshiftStep^[xsOrder / p] xsSeed ≠ xsSeed := by
  have hkey : ∀ p : Nat, 0 < p →
      vecPowSq xsSeed xsSquaringsN (natBits 64 (xsOrder / p))
        = xorshiftStep^[xsOrder / p] xsSeed := by
    intro p hp
    exact vecPowSq_eq_iterate _ (by
      have := Nat.div_le_self xsOrder p
      have := xsOrder_lt
      omega)
  intro p hp
  fin_cases hp
  · rw [← hkey 3 (by omega)]; exact xsSeed_pow_factors.1
  · rw [← hkey 5 (by omega)]; exact xsSeed_pow_factors.2.1
  · rw [← hkey 17 (by omega)]; exact xsSeed_pow_factors.2.2.1
  · rw [← hkey 257 (by omega)]; exact xsSeed_pow_factors.2.2.2.1
  · rw [← hkey 641 (by omega)]; exact xsSeed_pow_factors.2.2.2.2.1
  · rw [← hkey 65537 (by omega)]; exact xsSeed_pow_factors.2.2.2.2.2.1
  · rw [← hkey 6700417 (by omega)]; exact xsSeed_pow_factors.2.2.2.2.2.2

/-! Return times of the seed and the order argument. -/

/-- The generator state returns to the seed after `d` steps. -/
def xsRet (d : Nat) : Prop := xorshiftStep^[d] xsSeed = xsSeed

theorem xsRet_order : xsRet xsOrder := step_order_seed

theorem xsRet_mul (b : Nat) (hb : xsRet b) : ∀ k, xsRet (k * b) := by
  intro k
  induction k with
  | zero =>
    show xorshiftStep^[0 * b] xsSeed = xsSeed
    rw [Nat.zero_mul]
    rfl
  | succ q ih =>
    show xorshiftStep^[(q + 1) * b] xsSeed = xsSeed
    have h : (q + 1) * b = q * b + b := by ring
    rw [h, Function.iterate_add_apply, hb]
    exact ih

theorem xsRet_mod (a b : Nat) (ha : xsRet a) (hb : xsRet b) : xsRet (a % b) := by
  show xorshiftStep^[a % b] xsSeed = xsSeed
  have h2 : xorshiftStep^[a % b + a / b * b] xsSeed = xsSeed := by
    have harith : a % b + a / b * b = a := by
      rw [Nat.mul_comm]
      exact Nat.mod_add_div a b
    rw [harith]
    exact ha
  rw [Function.iterate_add_apply, xsRet_mul b hb (a / b)] at h2
  exact h2

theorem xsRet_gcd : ∀ a b, xsRet a → xsRet b → xsRet (Nat.gcd a b) := by
  intro a b
  induction a, b using Nat.gcd.induction with
  | H0 n =>
    intro _ hb
    simpa using hb
  | H1 m n hm ih =>
    intro ha hb
    rw [Nat.gcd_rec]
    exact ih (xsRet_mod n m hb ha) ha

theorem xsOrder_factorization :
    xsOrder = 3 * (5 * (17 * (257 * (641 * (65537 * 6700417))))) := by
  norm_num [xsOrder]

/-- Every proper divisor of the order divides the order divided by one
of its prime factors. -/
theorem dvd_maximal (g : Nat) (hdvd : g ∣ xsOrder) (hne : g ≠ xsOrder) :
    ∃ p ∈ ([3, 5, 17, 257, 641, 65537, 6700417] : List Nat), g ∣ xsOrder / p := by
  have hopos : 0 < xsOrder := by norm_num [xsOrder]
  obtain ⟨q, hq⟩ := hdvd
  have hq1 : q ≠ 1 := by
    intro h
    rw [h, Nat.mul_one] at hq
    exact hne hq.symm
  obtain ⟨p, hp, hpq⟩ := Nat.exists_prime_and_dvd hq1
  have hp7 : p = 3 ∨ p = 5 ∨ p = 17 ∨ p = 257 ∨ p = 641 ∨ p = 65537 ∨ p = 6700417 := by
    have hpdvd : p ∣ xsOrder := hq ▸ Dvd.dvd.mul_left hpq g
    rw [xsOrder_factorization] at hpdvd
    rcases (Nat.Prime.dvd_mul hp).mp hpdvd with h | h
    · exact Or.inl ((Nat.prime_dvd_prime_iff_eq hp (by norm_num)).mp h)
    rcases (Nat.Prime.dvd_mul hp).mp h with h | h
    · exact Or.inr (Or.inl ((Nat.prime_dvd_prime_iff_eq hp (by norm_num)).mp h))
    rcases (Nat.Prime.dvd_mul hp).mp h with h | h
    · exact Or.inr (Or.inr (Or.inl ((Nat.prime_dvd_prime_iff_eq hp (by norm_num)).mp h)))
    rcases (Nat.Prime.dvd_mul hp).mp h with h | h
    · exact Or.inr (Or.inr (Or.inr (Or.inl
        ((Nat.prime_dvd_prime_iff_eq hp (by norm_num)).mp h))))
    rcases (Nat.Prime.dvd_mul hp).mp h with h | h
    · exact Or.inr (Or.inr (Or.inr (Or.inr (Or.inl
        ((Nat.prime_dvd_prime_iff_eq hp (by norm_num)).mp h)))))
    rcases (Nat.Prime.dvd_mul hp).mp h with h | h
    · exact Or.inr (Or.inr (Or.inr (Or.inr (Or.inr (Or.inl
        ((Nat.prime_dvd_prime_iff_eq hp (by norm_num)).mp h))))))
    · exact Or.inr (Or.inr (Or.inr (Or.inr (Or.inr (Or.inr
        ((Nat.prime_dvd_prime_iff_eq hp (by norm_num)).mp h))))))
  obtain ⟨r, hr⟩ := hpq
  have hdiv : xsOrder / p = g * r := by
    have hmul : xsOrder = p * (g * r) := by
      rw [hq, hr]
      ring
    rw [hmul, Nat.mul_div_cancel_left _ hp.pos]
  have hgdvd : g ∣ xsOrder / p := ⟨r, hdiv⟩
  rcases hp7 with h | h | h | h | h | h | h <;> subst h
  · exact ⟨3, by decide, hgdvd⟩
  · exact ⟨5, by decide, hgdvd⟩
  · exact ⟨17, by decide, hgdvd⟩
  · exact ⟨257, by decide, hgdvd⟩
  · exact ⟨641, by decide, hgdvd⟩
  · exact ⟨65537, by decide, hgdvd⟩
  · exact ⟨6700417, by decide, hgdvd⟩

/-- No positive return time of the seed is smaller than the order. -/
theorem no_small_ret (d : Nat) (hd : 0 < d) (hlt : d < xsOrder) : ¬xsRet d := by
  intro hret
  have hg := xsRet_gcd d xsOrder hret xsRet_order
  have hgd : Nat.gcd d xsOrder ∣ xsOrder := Nat.gcd_dvd_right d xsOrder
  have hgle : Nat.gcd d xsOrder ≤ d := Nat.le_of_dvd hd (Nat.gcd_dvd_left d xsOrder)
  have hgne : Nat.gcd d xsOrder ≠ xsOrder := by omega
  obtain ⟨p, hp, hdvd⟩ := dvd_maximal _ hgd hgne
  obtain ⟨k, hk⟩ := hdvd
  have hretp : xsRet (xsOrder / p) := by
    show xorshiftStep^[xsOrder / p] xsSeed = xsSeed
    rw [hk, Nat.mul_comm]
    exact xsRet_mul _ hg k
  exact step_factor_seed p hp hretp

/-! Injectivity and surjectivity of the step on 64-bit values. -/

theorem shlx_inj (k : Nat) (hk : 0 < k) (x y : Nat) (hx : x < U64) (hy : y < U64)
    (h : shlx k x = shlx k y) : x = y := by
  have hU : U64 = 2 ^ 64 := rfl
  apply Nat.eq_of_testBit_eq
  intro i
  induction i using Nat.strong_induction_on with
  | _ i ih =>
    by_cases hi : i < 64
    · have hbit := congrArg (fun t => t.testBit i) h
      simp only [shlx, U64, Nat.testBit_xor, Nat.testBit_mod_two_pow,
        Nat.testBit_shiftLeft] at hbit
      by_cases hik : k ≤ i
      · have hrec : x.testBit (i - k) = y.testBit (i - k) := ih (i - k) (by omega)
        rw [hrec] at hbit
        cases hb : (decide (i < 64) && (decide (i ≥ k) && y.testBit (i - k))) with
        | false =>
          simp only [hb, Bool.xor_false] at hbit
          exact hbit
        | true =>
          simp only [hb, Bool.xor_true] at hbit
          exact Bool.not_inj hbit
      · have hd : decide (i ≥ k) = false := decide_eq_false hik
        simp only [hd, Bool.false_and, Bool.and_false, Bool.xor_false] at hbit
        exact hbit
    · have h64 : (2 : Nat) ^ 64 ≤ 2 ^ i := Nat.pow_le_pow_right (by omega) (by omega)
      rw [Nat.testBit_eq_false_of_lt (by omega), Nat.testBit_eq_false_of_lt (by omega)]

theorem shrx_inj (k : Nat) (hk : 0 < k) (x y : Nat) (hx : x < U64) (hy : y < U64)
    (h : shrx k x = shrx k y) : x = y := by
  have hU : U64 = 2 ^ 64 := rfl
  have hhigh : ∀ j, 64 ≤ j → x.testBit j = y.testBit j := by
    intro j hj
    have h64 : (2 : Nat) ^ 64 ≤ 2 ^ j := Nat.pow_le_pow_right (by omega) (by omega)
    rw [Nat.testBit_eq_false_of_lt (by omega), Nat.testBit_eq_false_of_lt (by omega)]
  have hdown : ∀ d i, 64 ≤ i + d → x.testBit i = y.testBit i := by
    intro d
    induction d with
    | zero =>
      intro i hi
      exact hhigh i (by omega)
    | succ e ih =>
      intro i hi
      by_cases hi64 : 64 ≤ i
      · exact hhigh i hi64
      · have hbit := congrArg (fun t => t.testBit i) h
        simp only [shrx, Nat.testBit_xor, Nat.testBit_shiftRight] at hbit
        have hrec : x.testBit (k + i) = y.testBit (k + i) := ih (k + i) (by omega)
        rw [hrec] at hbit
        cases hb : y.testBit (k + i) with
        | false =>
          simp only [hb, Bool.xor_false] at hbit
          exact hbit
        | true =>
          simp only [hb, Bool.xor_true] at hbit
          exact Bool.not_inj hbit
  apply Nat.eq_of_testBit_eq
  intro i
  exact hdown 64 i (by omega)

theorem xorshiftStep_inj (x y : Nat) (hx : x < U64) (hy : y < U64)
    (h : xorshiftStep x = xorshiftStep y) : x = y := by
  rw [xorshiftStep_eq, xorshiftStep_eq] at h
  have h1 := shlx_inj 17 (by omega) _ _ (shrx_lt 7 _ (shlx_lt 13 _ hx))
    (shrx_lt 7 _ (shlx_lt 13 _ hy)) h
  have h2 := shrx_inj 7 (by omega) _ _ (shlx_lt 13 _ hx) (shlx_lt 13 _ hy) h1
  exact shlx_inj 13 (by omega) _ _ hx hy h2

theorem xorshiftStep_surj (y : Nat) (hy : y < U64) :
    ∃ x, x < U64 ∧ xorshiftStep x = y := by
  have hU : 0 < U64 := U64_pos
  let f : Fin U64 → Fin U64 := fun x => ⟨xorshiftStep x.1, xorshiftStep_lt x.1 x.2⟩
  have hinj : Function.Injective f := by
    intro a b hab
    have h1 : xorshiftStep a.1 = xorshiftStep b.1 := congrArg Fin.val hab
    exact Fin.ext (xorshiftStep_inj a.1 b.1 a.2 b.2 h1)
  have hsurj : Function.Surjective f := Finite.injective_iff_surjective.mp hinj
  obtain ⟨x, hxe⟩ := hsurj ⟨y, hy⟩
  exact ⟨x.1, x.2, congrArg Fin.val hxe⟩

theorem step_nonzero (x : Nat) (hx : x < U64) (hx0 : x ≠ 0) : xorshiftStep x ≠ 0 := by
  intro h
  apply hx0
  apply xorshiftStep_inj x 0 hx U64_pos
  rw [h, xorshiftStep_zero]

theorem step_iterates_distinct (i j : Nat) (hi : 1 ≤ i) (hij : i < j)
    (hj : j ≤ xsOrder) : xorshiftStep^[i] xsSeed ≠ xorshiftStep^[j] xsSeed := by
  intro h
  have hd : 0 < j - i := by omega
  have hdlt : j - i < xsOrder := by
    have hop : 0 < xsOrder := by norm_num [xsOrder]
    omega
  apply no_small_ret (j - i) hd hdlt
  show xorshiftStep^[j - i] xsSeed = xsSeed
  have hy : xorshiftStep^[j - i] (xorshiftStep^[i] xsSeed) = xorshiftStep^[i] xsSeed := by
    rw [← Function.iterate_add_apply]
    have hji : j - i + i = j := by omega
    rw [hji, ← h]
  have hs : xorshiftStep^[xsOrder - i] (xorshiftStep^[i] xsSeed) = xsSeed := by
    rw [← Function.iterate_add_apply]
    have hoi : xsOrder - i + i = xsOrder := by omega
    rw [hoi]
    exact step_order_seed
  calc xorshiftStep^[j - i] xsSeed
      = xorshiftStep^[j - i] (xorshiftStep^[xsOrder - i] (xorshiftStep^[i] xsSeed)) := by
        rw [hs]
    _ = xorshiftStep^[j - i + (xsOrder - i)] (xorshiftStep^[i] xsSeed) :=
        (Function.iterate_add_apply _ _ _ _).symm
    _ = xorshiftStep^[xsOrder - i + (j - i)] (xorshiftStep^[i] xsSeed) := by
        rw [Nat.add_comm]
    _ = xorshiftStep^[xsOrder - i] (xorshiftStep^[j - i] (xorshiftStep^[i] xsSeed)) :=
        Function.iterate_add_apply _ _ _ _
    _ = xorshiftStep^[xsOrder - i] (xorshiftStep^[i] xsSeed) := by rw [hy]
    _ = xsSeed := hs

/-- The key-drawing loop produces the iterates of the step, one past the
starting state, and leaves the state at the last key drawn. -/
theorem genList_spec : ∀ (n a : Nat),
    (genList n a).1 = (List.range n).map (fun i => xorshiftStep^[i + 1] a) ∧
    (genList n a).2 = xorshiftStep^[n] a := by
  intro n
  induction n with
  | zero => intro a; exact ⟨rfl, rfl⟩
  | succ m ih =>
    intro a
    constructor
    · show xorshiftStep a :: (genList m (xorshiftStep a)).1 = _
      rw [(ih (xorshiftStep a)).1, List.range_succ_eq_map, List.map_cons, List.map_map]
      congr 1
    · show (genList m (xorshiftStep a)).2 = _
      rw [(ih (xorshiftStep a)).2]
      exact (Function.iterate_succ_apply xorshiftStep m a).symm

theorem genList_batches_disjoint (t c : Nat) (_hc : 0 < c)
    (hbound : t + 2 * c ≤ xsOrder) :
    ∀ x, x ∈ (genList c (xorshiftStep^[t] xsSeed)).1 →
      x ∉ (genList c ((genList c (xorshiftStep^[t] xsSeed)).2)).1 := by
  intro x hx1 hx2
  rw [(genList_spec c (xorshiftStep^[t] xsSeed)).1] at hx1
  rw [(genList_spec c (xorshiftStep^[t] xsSeed)).2] at hx2
  rw [(genList_spec c (xorshiftStep^[c] (xorshiftStep^[t] xsSeed))).1] at hx2
  obtain ⟨i, hi, hxi⟩ := List.mem_map.mp hx1
  obtain ⟨j, hj, hxj⟩ := List.mem_map.mp hx2
  rw [List.mem_range] at hi hj
  have e1 : xorshiftStep^[i + 1 + t] xsSeed = x := by
    have ha : xorshiftStep^[i + 1 + t] xsSeed
        = xorshiftStep^[i + 1] (xorshiftStep^[t] xsSeed) :=
      Function.iterate_add_apply _ _ _ _
    rw [ha]
    exact hxi
  have e2 : xorshiftStep^[j + 1 + (c + t)] xsSeed = x := by
    have ha : xorshiftStep^[j + 1 + (c + t)] xsSeed
        = xorshiftStep^[j + 1] (xorshiftStep^[c + t] xsSeed) :=
      Function.iterate_add_apply _ _ _ _
    have hb : xorshiftStep^[c + t] xsSeed
        = xorshiftStep^[c] (xorshiftStep^[t] xsSeed) :=
      Function.iterate_add_apply _ _ _ _
    rw [ha, hb]
    exact hxj
  have hne := step_iterates_distinct (i + 1 + t) (j + 1 + (c + t))
    (by omega) (by omega) (by omega)
  exact hne (e1.trans e2.symm)

/-- C9: the xorshift state-update function is a bijection on 64-bit values
that maps nonzero states to nonzero states; starting from the nonzero seed,
the outputs of distinct next() calls within the first 2^64 - 1 calls are
pairwise distinct, and in particular the keys and keys_missing batches of a
trial, drawn from any reachable generator state, share no element. -/
theorem C9_xorshift_bijective_distinct :
    (∀ x, x < U64 → xorshiftStep x < U64) ∧
    (∀ x y, x < U64 → y < U64 → xorshiftStep x = xorshiftStep y → x = y) ∧
    (∀ y, y < U64 → ∃ x, x < U64 ∧ xorshiftStep x = y) ∧
    (∀ x, x < U64 → x ≠ 0 → xorshiftStep x ≠ 0) ∧
    (∀ i j, 1 ≤ i → i < j → j ≤ 2 ^ 64 - 1 →
      xorshiftStep^[i] xsSeed ≠ xorshiftStep^[j] xsSeed) ∧
    (∀ t c, 0 < c → t + 2 * c ≤ 2 ^ 64 - 1 →
      ∀ x, x ∈ (genList c (xorshiftStep^[t] xsSeed)).1 →
        x ∉ (genList c ((genList c (xorshiftStep^[t] xsSeed)).2)).1) :=
  ⟨xorshiftStep_lt, xorshiftStep_inj, xorshiftStep_surj, step_nonzero,
   step_iterates_distinct, genList_batches_disjoint⟩

/-- Witness for C9: the first two outputs differ, and for a trial of one
key drawn at the seed the missing-key batch avoids the key batch. -/
theorem C9_xorshift_bijective_distinct_witness :
    xorshiftStep^[1] xsSeed ≠ xorshiftStep^[2] xsSeed ∧
    (genList 1 (xorshiftStep^[0] xsSeed)).1.headD 0
      ∉ (genList 1 ((genList 1 (xorshiftStep^[0] xsSeed)).2)).1 :=
  ⟨C9_xorshift_bijective_distinct.2.2.2.2.1 1 2 (by decide) (by decide) (by decide),
   C9_xorshift_bijective_distinct.2.2.2.2.2 0 1 (by decide) (by decide) _ (by decide)⟩

end MapsBench
